import Mathlib

/-!
# Countdown timer for the ATmega328P keypad shield

A shallow embedding of `src/keypad.h`, `src/keypad.c` and `src/main.c`.

* The C globals (`timer`, `cursorPosition`, `tickCount`, `isTicking`, `isOver`, the six
  keypad thresholds) and the local `previousKey` of `main` form one record `State`;
  every C function becomes a function on that record.
* C `int` values are modelled by `Int`.  The program only adds or subtracts small
  constants behind comparisons; on the values the theorems below range over
  (non-negative time fields, or any field behind a guarding comparison) no
  operation leaves the range of the 16-bit `int` of the target, so the model and
  the machine agree there.
* `adc_read` is an external collaborator: its result (the sample) is an input of
  `readKey`, and the ADC configuration (`_prescaler`, `_vref`, `_pin`) that is only
  handed to it is left out.  The LCD calls (`lcd_*`, `printTime`) only write to the
  display and the two delay routines only consume time; neither touches the state.
-/

namespace AvrTimer

/-! ## keypad.h -/

/-- The enumeration `Key` of `keypad.h`. -/
inductive Key where
  | KEY_LEFT
  | KEY_RIGHT
  | KEY_UP
  | KEY_DOWN
  | KEY_SELECT
  | KEY_NONE
  deriving DecidableEq, Repr

open Key

def KEYPAD_STATE_RIGHT : Int := 0
def KEYPAD_STATE_NONE : Int := 1023
def KEYPAD_STATE_UP : Int := 140
def KEYPAD_STATE_DOWN : Int := 324
def KEYPAD_STATE_LEFT : Int := 500
def KEYPAD_STATE_SELECT : Int := 737
def KEYPAD_TOLERANCE : Int := 50

/-! ## keypad.c -/

/-- The threshold globals of `keypad.c`. -/
structure Keypad where
  state_right : Int
  state_none : Int
  state_up : Int
  state_down : Int
  state_left : Int
  state_select : Int
  deriving DecidableEq, Repr

/-- The function `init_keypad`: every threshold becomes its reference level plus the
tolerance.  The three pointer arguments only select the ADC configuration. -/
def init_keypad (kp : Keypad) : Keypad :=
  { kp with
    state_right := KEYPAD_STATE_RIGHT + KEYPAD_TOLERANCE
    state_none := KEYPAD_STATE_NONE + KEYPAD_TOLERANCE
    state_up := KEYPAD_STATE_UP + KEYPAD_TOLERANCE
    state_down := KEYPAD_STATE_DOWN + KEYPAD_TOLERANCE
    state_left := KEYPAD_STATE_LEFT + KEYPAD_TOLERANCE
    state_select := KEYPAD_STATE_SELECT + KEYPAD_TOLERANCE }

/-- The function `readKey`, with `adcVal` the value returned by `adc_read`. -/
def readKey (kp : Keypad) (adcVal : Int) : Key :=
  if adcVal < kp.state_right then KEY_RIGHT
  else if adcVal < kp.state_up then KEY_UP
  else if adcVal < kp.state_down then KEY_DOWN
  else if adcVal < kp.state_left then KEY_LEFT
  else if adcVal < kp.state_select then KEY_SELECT
  else KEY_NONE

/-! ## main.c -/

/-- The structure `Timer_s`. -/
structure Timer where
  hour : Int
  minute : Int
  second : Int
  millisecond : Int
  deriving DecidableEq, Repr

/-- The globals of `main.c` and `keypad.c` together with the local `previousKey`
of `main`. -/
structure State where
  timer : Timer
  cursorPosition : Int
  tickCount : Int
  isTicking : Bool
  isOver : Bool
  previousKey : Key
  keypad : Keypad
  deriving DecidableEq, Repr

/-- The effect of `memset(&timer, 0, sizeof(timer))`. -/
def memsetTimer (s : State) : State :=
  { s with timer := { hour := 0, minute := 0, second := 0, millisecond := 0 } }

/-- The function `initUI`. -/
def initUI (s : State) : State :=
  { s with cursorPosition := 8, keypad := init_keypad s.keypad }

/-- The function `tick`. -/
def tick (s : State) : State :=
  if s.timer.hour ≤ 0 ∧ s.timer.minute ≤ 0 ∧ s.timer.second ≤ 0 ∧ s.timer.millisecond ≤ 0 then
    { s with isTicking := false, isOver := true, cursorPosition := -1 }
  else
    let s1 := { s with timer := { s.timer with millisecond := s.timer.millisecond - 10 } }
    if s1.timer.millisecond < 0 then
      let s2 := { s1 with timer := { s1.timer with
        millisecond := s1.timer.millisecond + 1000, second := s1.timer.second - 1 } }
      if s2.timer.second < 0 then
        let s3 := { s2 with timer := { s2.timer with second := 59, minute := s2.timer.minute - 1 } }
        if s3.timer.minute < 0 then
          { s3 with timer := { s3.timer with minute := 59, hour := s3.timer.hour - 1 } }
        else s3
      else s2
    else s1

/-- The condition of the `if` that opens the body of the main loop. -/
def main_guard (key : Key) (s : State) : Bool :=
  key != KEY_NONE && key != s.previousKey && !((s.isTicking || s.isOver) && key != KEY_SELECT)

/-- The statement `switch(key)` of the main loop. -/
def main_switch (key : Key) (s : State) : State :=
  match key with
  | KEY_LEFT =>
    if s.cursorPosition = -1 ∨ s.cursorPosition ≤ 1 then s
    else { s with cursorPosition := s.cursorPosition - 1 }
  | KEY_RIGHT =>
    if s.cursorPosition = -1 ∨ s.cursorPosition ≥ 8 then s
    else { s with cursorPosition := s.cursorPosition + 1 }
  | KEY_UP =>
    if s.cursorPosition = 1 then
      if s.timer.hour < 90 then { s with timer := { s.timer with hour := s.timer.hour + 10 } } else s
    else if s.cursorPosition = 2 then
      if s.timer.hour < 99 then { s with timer := { s.timer with hour := s.timer.hour + 1 } } else s
    else if s.cursorPosition = 4 then
      if s.timer.minute < 90 then
        { s with timer := { s.timer with minute := s.timer.minute + 10 } } else s
    else if s.cursorPosition = 5 then
      if s.timer.minute < 99 then
        { s with timer := { s.timer with minute := s.timer.minute + 1 } } else s
    else if s.cursorPosition = 7 then
      if s.timer.second < 90 then
        { s with timer := { s.timer with second := s.timer.second + 10 } } else s
    else if s.cursorPosition = 8 then
      if s.timer.second < 99 then
        { s with timer := { s.timer with second := s.timer.second + 1 } } else s
    else s
  | KEY_DOWN =>
    if s.cursorPosition = 1 then
      if s.timer.hour ≥ 10 then { s with timer := { s.timer with hour := s.timer.hour - 10 } } else s
    else if s.cursorPosition = 2 then
      if s.timer.hour > 0 then { s with timer := { s.timer with hour := s.timer.hour - 1 } } else s
    else if s.cursorPosition = 4 then
      if s.timer.minute ≥ 10 then
        { s with timer := { s.timer with minute := s.timer.minute - 10 } } else s
    else if s.cursorPosition = 5 then
      if s.timer.minute > 0 then
        { s with timer := { s.timer with minute := s.timer.minute - 1 } } else s
    else if s.cursorPosition = 7 then
      if s.timer.second ≥ 10 then
        { s with timer := { s.timer with second := s.timer.second - 10 } } else s
    else if s.cursorPosition = 8 then
      if s.timer.second > 0 then
        { s with timer := { s.timer with second := s.timer.second - 1 } } else s
    else s
  | KEY_SELECT =>
    if s.isTicking then
      { s with isTicking := false, cursorPosition := 1 }
    else if !s.isTicking && !s.isOver then
      if s.timer.hour ≠ 0 ∨ s.timer.minute ≠ 0 ∨ s.timer.second ≠ 0 then
        { s with isTicking := true, cursorPosition := -1 }
      else s
    else if s.isOver then
      { initUI (memsetTimer s) with isOver := false }
    else s
  | KEY_NONE => s

/-- The two `if`s after the switch that keep the cursor off the colons. -/
def main_colon (key : Key) (s : State) : State :=
  if s.cursorPosition = 3 then
    if key = KEY_LEFT then { s with cursorPosition := 2 } else { s with cursorPosition := 4 }
  else if s.cursorPosition = 6 then
    if key = KEY_LEFT then { s with cursorPosition := 5 } else { s with cursorPosition := 7 }
  else s

/-- The key handling of one iteration of the main loop: the guarded block made of
the switch and the colon redirect. -/
def main_keyStep (key : Key) (s : State) : State :=
  if main_guard key s then main_colon key (main_switch key s) else s

/-- One full iteration of the main loop, `key` being the value returned by `readKey`. -/
def main_loop (key : Key) (s : State) : State :=
  let s1 := main_keyStep key s
  let s2 := { s1 with previousKey := key }
  if s2.isTicking then
    let s3 := tick s2
    let s4 := { s3 with tickCount := s3.tickCount + 1 }
    if s4.tickCount = 10 then { s4 with tickCount := 0 } else s4
  else s2

/-- One iteration of the main loop from the raw ADC sample. -/
def main_loopAdc (adcVal : Int) (s : State) : State :=
  main_loop (readKey s.keypad adcVal) s

/-- The state when `main` is entered: every global is zero-initialised, except that
`isTicking` and `isOver` are explicitly `false` and `cursorPosition` explicitly `0`. -/
def boot : State :=
  { timer := { hour := 0, minute := 0, second := 0, millisecond := 0 }
    cursorPosition := 0
    tickCount := 0
    isTicking := false
    isOver := false
    previousKey := KEY_NONE
    keypad := { state_right := 0, state_none := 0, state_up := 0, state_down := 0,
                state_left := 0, state_select := 0 } }

/-- The state on entry to the main loop: `memset`, `initUI`, `previousKey = KEY_NONE`. -/
def main_init : State :=
  { initUI (memsetTimer boot) with previousKey := KEY_NONE }

/-- The main loop run over a finite sequence of sampled keys. -/
def main_run (keys : List Key) (s : State) : State :=
  keys.foldl (fun st k => main_loop k st) s

/-- A state of the running program with the given timer, cursor, flags and previous
key; the keypad is initialised and the refresh counter is zero. -/
def stateOf (t : Timer) (cursor : Int) (ticking over : Bool) (prev : Key) : State :=
  { timer := t
    cursorPosition := cursor
    tickCount := 0
    isTicking := ticking
    isOver := over
    previousKey := prev
    keypad := init_keypad boot.keypad }

/-- The borrow chain of the countdown as the specification words it: subtract 10
from the milliseconds; if they went negative add 1000 and take one second; if the
seconds are then negative set them to 59 and take one minute; if the minutes are
then negative set them to 59 and take one hour. -/
def tickBorrowChain (t : Timer) : Timer :=
  let ms := t.millisecond - 10
  let sec := if ms < 0 then t.second - 1 else t.second
  let ms := if ms < 0 then ms + 1000 else ms
  let min := if sec < 0 then t.minute - 1 else t.minute
  let sec := if sec < 0 then 59 else sec
  let hr := if min < 0 then t.hour - 1 else t.hour
  let min := if min < 0 then 59 else min
  { hour := hr, minute := min, second := sec, millisecond := ms }

/-- The key samples of the end-to-end scenario up to the start of the countdown:
Select on the zero timer, Left to the seconds-tens digit, and five presses of Up,
each followed by its release. -/
def scenarioKeys : List Key :=
  [KEY_SELECT, KEY_LEFT, KEY_UP, KEY_NONE, KEY_UP, KEY_NONE, KEY_UP, KEY_NONE,
   KEY_UP, KEY_NONE, KEY_UP, KEY_NONE]

/-- The display ranges of the time value: hour, minute and second two decimal
digits, millisecond three. -/
def timeInRange (t : Timer) : Prop :=
  0 ≤ t.hour ∧ t.hour ≤ 99 ∧ 0 ≤ t.minute ∧ t.minute ≤ 99 ∧ 0 ≤ t.second ∧ t.second ≤ 99
    ∧ 0 ≤ t.millisecond ∧ t.millisecond ≤ 999

instance (t : Timer) : Decidable (timeInRange t) := by
  unfold timeInRange
  infer_instance

/-- The cursor positions that address a digit of `HH:MM:SS`. -/
def cursorOnDigit (c : Int) : Prop :=
  c = 1 ∨ c = 2 ∨ c = 4 ∨ c = 5 ∨ c = 7 ∨ c = 8

instance (c : Int) : Decidable (cursorOnDigit c) := by
  unfold cursorOnDigit
  infer_instance

/-- The invariant of the main loop: the time value is within the display ranges
with the milliseconds a multiple of 10; `isTicking` and `isOver` are not both set;
the cursor is locked at -1 when one of them is set and on a digit otherwise; and
once `isOver` is set the time value is all-zero. -/
def loopInv (s : State) : Prop :=
  timeInRange s.timer ∧ s.timer.millisecond % 10 = 0
    ∧ (s.isTicking = false ∨ s.isOver = false)
    ∧ ((s.isTicking = true ∨ s.isOver = true) → s.cursorPosition = -1)
    ∧ ((s.isTicking = false ∧ s.isOver = false) → cursorOnDigit s.cursorPosition)
    ∧ (s.isOver = true → s.timer = ⟨0, 0, 0, 0⟩)

instance (s : State) : Decidable (loopInv s) := by
  unfold loopInv
  infer_instance

/-- Key samples that set seventy seconds (Left to the seconds-tens digit, seven
presses of Up with their releases) and start the countdown with Select. -/
def seventySecondsKeys : List Key :=
  [KEY_LEFT, KEY_UP, KEY_NONE, KEY_UP, KEY_NONE, KEY_UP, KEY_NONE, KEY_UP, KEY_NONE,
   KEY_UP, KEY_NONE, KEY_UP, KEY_NONE, KEY_UP, KEY_NONE, KEY_SELECT]

end AvrTimer

namespace AvrTimer

open Key

/-! ## The countdown step `tick` -/

/-- The branch of `tick` taken when some field is positive, written out. -/
theorem tick_of_positive (s : State)
    (h : ¬(s.timer.hour ≤ 0 ∧ s.timer.minute ≤ 0 ∧ s.timer.second ≤ 0 ∧ s.timer.millisecond ≤ 0)) :
    tick s =
      if s.timer.millisecond - 10 < 0 then
        if s.timer.second - 1 < 0 then
          if s.timer.minute - 1 < 0 then
            { s with timer := { hour := s.timer.hour - 1, minute := 59, second := 59,
                                millisecond := s.timer.millisecond - 10 + 1000 } }
          else
            { s with timer := { hour := s.timer.hour, minute := s.timer.minute - 1, second := 59,
                                millisecond := s.timer.millisecond - 10 + 1000 } }
        else
          { s with timer := { hour := s.timer.hour, minute := s.timer.minute,
                              second := s.timer.second - 1,
                              millisecond := s.timer.millisecond - 10 + 1000 } }
      else
        { s with timer := { hour := s.timer.hour, minute := s.timer.minute,
                            second := s.timer.second,
                            millisecond := s.timer.millisecond - 10 } } := by
  unfold tick
  rw [if_neg h]

/-- The branch of `tick` taken when no field is positive. -/
theorem tick_of_nonpositive (s : State)
    (h : s.timer.hour ≤ 0 ∧ s.timer.minute ≤ 0 ∧ s.timer.second ≤ 0 ∧ s.timer.millisecond ≤ 0) :
    tick s = { s with isTicking := false, isOver := true, cursorPosition := -1 } := by
  unfold tick
  rw [if_pos h]

/-- For non-negative fields the guard of `tick` holds exactly at the all-zero value. -/
theorem tick_guard_iff_zero (t : Timer) (hh : 0 ≤ t.hour) (hm : 0 ≤ t.minute)
    (hs : 0 ≤ t.second) (hms : 0 ≤ t.millisecond) :
    (t.hour ≤ 0 ∧ t.minute ≤ 0 ∧ t.second ≤ 0 ∧ t.millisecond ≤ 0)
      ↔ (t.hour = 0 ∧ t.minute = 0 ∧ t.second = 0 ∧ t.millisecond = 0) := by
  constructor <;> rintro ⟨a, b, c, d⟩ <;> refine ⟨?_, ?_, ?_, ?_⟩ <;> omega

/-- On non-negative fields that are not all-zero, one `tick` lowers the total
`((hour*60 + minute)*60 + second)*1000 + millisecond` by exactly 10. -/
theorem tick_total_of_nonneg (s : State)
    (hh : 0 ≤ s.timer.hour) (hm : 0 ≤ s.timer.minute) (hs : 0 ≤ s.timer.second)
    (hms : 0 ≤ s.timer.millisecond)
    (hnz : ¬(s.timer.hour = 0 ∧ s.timer.minute = 0 ∧ s.timer.second = 0
              ∧ s.timer.millisecond = 0)) :
    (((tick s).timer.hour * 60 + (tick s).timer.minute) * 60 + (tick s).timer.second) * 1000
        + (tick s).timer.millisecond
      = (((s.timer.hour * 60 + s.timer.minute) * 60 + s.timer.second) * 1000
        + s.timer.millisecond) - 10 := by
  have hg : ¬(s.timer.hour ≤ 0 ∧ s.timer.minute ≤ 0 ∧ s.timer.second ≤ 0
      ∧ s.timer.millisecond ≤ 0) := by
    rw [tick_guard_iff_zero s.timer hh hm hs hms]; exact hnz
  rw [tick_of_positive s hg]
  split_ifs <;> dsimp only <;> omega

/-- On non-negative fields that are not all-zero, `tick` is the borrow chain of the
specification on the timer and touches nothing else. -/
theorem tick_borrow_of_nonneg (s : State)
    (hh : 0 ≤ s.timer.hour) (hm : 0 ≤ s.timer.minute) (hs : 0 ≤ s.timer.second)
    (hms : 0 ≤ s.timer.millisecond)
    (hnz : ¬(s.timer.hour = 0 ∧ s.timer.minute = 0 ∧ s.timer.second = 0
              ∧ s.timer.millisecond = 0)) :
    tick s = { s with timer := tickBorrowChain s.timer } := by
  have hg : ¬(s.timer.hour ≤ 0 ∧ s.timer.minute ≤ 0 ∧ s.timer.second ≤ 0
      ∧ s.timer.millisecond ≤ 0) := by
    rw [tick_guard_iff_zero s.timer hh hm hs hms]; exact hnz
  rw [tick_of_positive s hg]
  unfold tickBorrowChain
  by_cases h1 : s.timer.millisecond - 10 < 0
  · by_cases h2 : s.timer.second - 1 < 0
    · by_cases h3 : s.timer.minute - 1 < 0
      · simp [h1, h2, h3]
      · simp [h1, h2, h3]
    · have h3 : ¬ s.timer.minute < 0 := by omega
      simp [h1, h2, h3]
  · have h2 : ¬ s.timer.second < 0 := by omega
    have h3 : ¬ s.timer.minute < 0 := by omega
    simp [h1, h2, h3]

/-- Claim C3: for every timer value with all four fields non-negative, `tick`
signals expiry exactly at the all-zero value.  At all-zero it sets `isTicking` to
false and `isOver` to true, locks the cursor at -1 and changes nothing else, so the
timer stays all-zero; at any other value it leaves both flags and the cursor as
they were; hence, whenever `tick` is called as the main loop calls it (with
`isTicking` set), the flags afterwards read Expired if and only if the value was
all-zero. -/
theorem tick_expiry_iff_all_zero (s : State)
    (hh : 0 ≤ s.timer.hour) (hm : 0 ≤ s.timer.minute) (hs : 0 ≤ s.timer.second)
    (hms : 0 ≤ s.timer.millisecond) :
    ((s.timer.hour = 0 ∧ s.timer.minute = 0 ∧ s.timer.second = 0 ∧ s.timer.millisecond = 0) →
        tick s = { s with isTicking := false, isOver := true, cursorPosition := -1 }
          ∧ (tick s).timer = ⟨0, 0, 0, 0⟩)
      ∧ (¬(s.timer.hour = 0 ∧ s.timer.minute = 0 ∧ s.timer.second = 0
            ∧ s.timer.millisecond = 0) →
          (tick s).isTicking = s.isTicking ∧ (tick s).isOver = s.isOver
            ∧ (tick s).cursorPosition = s.cursorPosition)
      ∧ (s.isTicking = true →
          (((tick s).isTicking = false ∧ (tick s).isOver = true) ↔
            (s.timer.hour = 0 ∧ s.timer.minute = 0 ∧ s.timer.second = 0
              ∧ s.timer.millisecond = 0))) := by
  have hiff := tick_guard_iff_zero s.timer hh hm hs hms
  have hzero : (s.timer.hour = 0 ∧ s.timer.minute = 0 ∧ s.timer.second = 0
      ∧ s.timer.millisecond = 0) →
      tick s = { s with isTicking := false, isOver := true, cursorPosition := -1 } :=
    fun hz => tick_of_nonpositive s (hiff.mpr hz)
  have hpos : ¬(s.timer.hour = 0 ∧ s.timer.minute = 0 ∧ s.timer.second = 0
      ∧ s.timer.millisecond = 0) →
      (tick s).isTicking = s.isTicking ∧ (tick s).isOver = s.isOver
        ∧ (tick s).cursorPosition = s.cursorPosition := by
    intro hnz
    rw [tick_of_positive s (fun hg => hnz (hiff.mp hg))]
    split_ifs <;> exact ⟨rfl, rfl, rfl⟩
  refine ⟨?_, hpos, ?_⟩
  · intro hz
    refine ⟨hzero hz, ?_⟩
    rw [hzero hz]
    obtain ⟨a, b, c, d⟩ := hz
    show s.timer = ⟨0, 0, 0, 0⟩
    cases hst : s.timer with
    | mk h m sec ms =>
      rw [hst] at a b c d
      simp only at a b c d
      subst a b c d
      rfl
  · intro htick
    constructor
    · rintro ⟨hf, _⟩
      by_contra hnz
      rw [(hpos hnz).1, htick] at hf
      exact Bool.noConfusion hf
    · intro hz
      rw [hzero hz]
      exact ⟨rfl, rfl⟩

/-- The countdown has reached 0:00:00.000 while counting: the next `tick` expires. -/
theorem tick_expiry_iff_all_zero_witness :
    tick (stateOf ⟨0, 0, 0, 0⟩ (-1) true false KEY_NONE)
        = stateOf ⟨0, 0, 0, 0⟩ (-1) false true KEY_NONE
      ∧ (tick (stateOf ⟨0, 0, 0, 0⟩ (-1) true false KEY_NONE)).timer = ⟨0, 0, 0, 0⟩ :=
  (tick_expiry_iff_all_zero (stateOf ⟨0, 0, 0, 0⟩ (-1) true false KEY_NONE)
    (by decide) (by decide) (by decide) (by decide)).1 (by decide)

/-- Claim C4, as stated, fails: (0, 0, 0, 5) lies within the data-model ranges, is
not caught by the all-zero check, and `tick` borrows through every field down to
hour = -1. -/
theorem tick_underflows_from_five_milliseconds :
    (0 ≤ (stateOf ⟨0, 0, 0, 5⟩ (-1) true false KEY_NONE).timer.hour
        ∧ (stateOf ⟨0, 0, 0, 5⟩ (-1) true false KEY_NONE).timer.hour ≤ 99)
      ∧ (0 ≤ (stateOf ⟨0, 0, 0, 5⟩ (-1) true false KEY_NONE).timer.minute
        ∧ (stateOf ⟨0, 0, 0, 5⟩ (-1) true false KEY_NONE).timer.minute ≤ 99)
      ∧ (0 ≤ (stateOf ⟨0, 0, 0, 5⟩ (-1) true false KEY_NONE).timer.second
        ∧ (stateOf ⟨0, 0, 0, 5⟩ (-1) true false KEY_NONE).timer.second ≤ 99)
      ∧ (0 ≤ (stateOf ⟨0, 0, 0, 5⟩ (-1) true false KEY_NONE).timer.millisecond
        ∧ (stateOf ⟨0, 0, 0, 5⟩ (-1) true false KEY_NONE).timer.millisecond ≤ 999)
      ∧ (tick (stateOf ⟨0, 0, 0, 5⟩ (-1) true false KEY_NONE)).timer = ⟨-1, 59, 59, 995⟩
      ∧ (tick (stateOf ⟨0, 0, 0, 5⟩ (-1) true false KEY_NONE)).timer.hour < 0 := by
  decide

/-- Claim C4, amended: for every timer value within the data-model ranges (hour,
minute, second in 0..99, millisecond in 0..999) other than those with
hour = minute = second = 0 and 0 < millisecond < 10, all four fields are still
non-negative after `tick`.  The excluded values never arise in the program, where
the milliseconds are always a multiple of 10. -/
theorem tick_fields_nonneg (s : State)
    (hh : 0 ≤ s.timer.hour ∧ s.timer.hour ≤ 99)
    (hm : 0 ≤ s.timer.minute ∧ s.timer.minute ≤ 99)
    (hs : 0 ≤ s.timer.second ∧ s.timer.second ≤ 99)
    (hms : 0 ≤ s.timer.millisecond ∧ s.timer.millisecond ≤ 999)
    (hex : ¬(s.timer.hour = 0 ∧ s.timer.minute = 0 ∧ s.timer.second = 0
              ∧ 0 < s.timer.millisecond ∧ s.timer.millisecond < 10)) :
    0 ≤ (tick s).timer.hour ∧ 0 ≤ (tick s).timer.minute ∧ 0 ≤ (tick s).timer.second
      ∧ 0 ≤ (tick s).timer.millisecond := by
  by_cases hg : s.timer.hour ≤ 0 ∧ s.timer.minute ≤ 0 ∧ s.timer.second ≤ 0
      ∧ s.timer.millisecond ≤ 0
  · rw [tick_of_nonpositive s hg]
    exact ⟨hh.1, hm.1, hs.1, hms.1⟩
  · rw [tick_of_positive s hg]
    split_ifs <;> dsimp only <;> refine ⟨?_, ?_, ?_, ?_⟩ <;> omega

/-- The last borrow of a countdown: 1:00:00.000 becomes 0:59:59.990. -/
theorem tick_fields_nonneg_witness :
    0 ≤ (tick (stateOf ⟨1, 0, 0, 0⟩ (-1) true false KEY_NONE)).timer.hour
      ∧ 0 ≤ (tick (stateOf ⟨1, 0, 0, 0⟩ (-1) true false KEY_NONE)).timer.minute
      ∧ 0 ≤ (tick (stateOf ⟨1, 0, 0, 0⟩ (-1) true false KEY_NONE)).timer.second
      ∧ 0 ≤ (tick (stateOf ⟨1, 0, 0, 0⟩ (-1) true false KEY_NONE)).timer.millisecond :=
  tick_fields_nonneg (stateOf ⟨1, 0, 0, 0⟩ (-1) true false KEY_NONE)
    (by decide) (by decide) (by decide) (by decide) (by decide)

/-! ## The key classifier `readKey` -/

/-- The thresholds after `init_keypad`, whatever they were before. -/
theorem init_keypad_thresholds (kp : Keypad) :
    (init_keypad kp).state_right = 50 ∧ (init_keypad kp).state_up = 190
      ∧ (init_keypad kp).state_down = 374 ∧ (init_keypad kp).state_left = 550
      ∧ (init_keypad kp).state_select = 787 ∧ (init_keypad kp).state_none = 1073 := by
  refine ⟨?_, ?_, ?_, ?_, ?_, ?_⟩ <;> rfl

/-- Claim C5: after `init_keypad`, `readKey` maps every integer sample to the key of
the first band it falls below, the bounds being reference + 50 and exclusive:
below 50 Right, 50..189 Up, 190..373 Down, 374..549 Left, 550..786 Select, and
None from 787 on; so 49 is Right, 50 and 189 are Up, 190 is Down, 1023 is None. -/
theorem readKey_bands (kp : Keypad) (adcVal : Int) :
    (adcVal < 50 → readKey (init_keypad kp) adcVal = KEY_RIGHT)
      ∧ (50 ≤ adcVal ∧ adcVal < 190 → readKey (init_keypad kp) adcVal = KEY_UP)
      ∧ (190 ≤ adcVal ∧ adcVal < 374 → readKey (init_keypad kp) adcVal = KEY_DOWN)
      ∧ (374 ≤ adcVal ∧ adcVal < 550 → readKey (init_keypad kp) adcVal = KEY_LEFT)
      ∧ (550 ≤ adcVal ∧ adcVal < 787 → readKey (init_keypad kp) adcVal = KEY_SELECT)
      ∧ (787 ≤ adcVal → readKey (init_keypad kp) adcVal = KEY_NONE)
      ∧ readKey (init_keypad kp) 49 = KEY_RIGHT
      ∧ readKey (init_keypad kp) 50 = KEY_UP
      ∧ readKey (init_keypad kp) 189 = KEY_UP
      ∧ readKey (init_keypad kp) 190 = KEY_DOWN
      ∧ readKey (init_keypad kp) 1023 = KEY_NONE := by
  obtain ⟨h1, h2, h3, h4, h5, -⟩ := init_keypad_thresholds kp
  have band : ∀ v : Int, readKey (init_keypad kp) v =
      if v < 50 then KEY_RIGHT else if v < 190 then KEY_UP else if v < 374 then KEY_DOWN
      else if v < 550 then KEY_LEFT else if v < 787 then KEY_SELECT else KEY_NONE := by
    intro v
    unfold readKey
    rw [h1, h2, h3, h4, h5]
  refine ⟨?_, ?_, ?_, ?_, ?_, ?_, ?_, ?_, ?_, ?_, ?_⟩
  · intro h
    rw [band, if_pos h]
  · rintro ⟨a, b⟩
    rw [band, if_neg (by omega), if_pos b]
  · rintro ⟨a, b⟩
    rw [band, if_neg (by omega), if_neg (by omega), if_pos b]
  · rintro ⟨a, b⟩
    rw [band, if_neg (by omega), if_neg (by omega), if_neg (by omega), if_pos b]
  · rintro ⟨a, b⟩
    rw [band, if_neg (by omega), if_neg (by omega), if_neg (by omega), if_neg (by omega),
      if_pos b]
  · intro a
    rw [band, if_neg (by omega), if_neg (by omega), if_neg (by omega), if_neg (by omega),
      if_neg (by omega)]
  · rw [band]; decide
  · rw [band]; decide
  · rw [band]; decide
  · rw [band]; decide
  · rw [band]; decide

/-! ## Key handling in the main loop -/

/-- In editing mode a key other than `KEY_NONE` that differs from the previous
sample passes the guard of the main loop. -/
theorem main_guard_editing (key : Key) (s : State) (hT : s.isTicking = false)
    (hO : s.isOver = false) (hnone : key ≠ KEY_NONE) (hnew : s.previousKey ≠ key) :
    main_guard key s = true := by
  unfold main_guard
  rw [hT, hO]
  cases key <;> cases hp : s.previousKey <;> simp_all

/-- Away from the colon columns the redirect after the switch does nothing. -/
theorem main_colon_off_colon (key : Key) (s : State) (h3 : s.cursorPosition ≠ 3)
    (h6 : s.cursorPosition ≠ 6) : main_colon key s = s := by
  unfold main_colon
  rw [if_neg h3, if_neg h6]

/-- When the guard passes, the key handling is the switch followed by the redirect. -/
theorem main_keyStep_of_guard (key : Key) (s : State) (h : main_guard key s = true) :
    main_keyStep key s = main_colon key (main_switch key s) := by
  unfold main_keyStep
  rw [if_pos h]

/-- Key handling of an accepted Up, by cursor position. -/
theorem main_keyStep_up_of_guard (s : State) (g : main_guard KEY_UP s = true) :
    (s.cursorPosition = 1 → main_keyStep KEY_UP s = { s with timer := { s.timer with
        hour := if s.timer.hour < 90 then s.timer.hour + 10 else s.timer.hour } })
      ∧ (s.cursorPosition = 2 → main_keyStep KEY_UP s = { s with timer := { s.timer with
        hour := if s.timer.hour < 99 then s.timer.hour + 1 else s.timer.hour } })
      ∧ (s.cursorPosition = 4 → main_keyStep KEY_UP s = { s with timer := { s.timer with
        minute := if s.timer.minute < 90 then s.timer.minute + 10 else s.timer.minute } })
      ∧ (s.cursorPosition = 5 → main_keyStep KEY_UP s = { s with timer := { s.timer with
        minute := if s.timer.minute < 99 then s.timer.minute + 1 else s.timer.minute } })
      ∧ (s.cursorPosition = 7 → main_keyStep KEY_UP s = { s with timer := { s.timer with
        second := if s.timer.second < 90 then s.timer.second + 10 else s.timer.second } })
      ∧ (s.cursorPosition = 8 → main_keyStep KEY_UP s = { s with timer := { s.timer with
        second := if s.timer.second < 99 then s.timer.second + 1 else s.timer.second } }) := by
  have off : ∀ (key : Key) (t : Timer), s.cursorPosition ≠ 3 → s.cursorPosition ≠ 6 →
      main_colon key { s with timer := t } = { s with timer := t } :=
    fun key t h3 h6 => main_colon_off_colon key _ h3 h6
  refine ⟨?_, ?_, ?_, ?_, ?_, ?_⟩
  · intro hc
    rw [main_keyStep_of_guard _ _ g]
    simp only [main_switch]
    rw [if_pos hc]
    split_ifs <;> exact off _ _ (by omega) (by omega)
  · intro hc
    rw [main_keyStep_of_guard _ _ g]
    simp only [main_switch]
    rw [if_neg (show ¬ s.cursorPosition = 1 by omega), if_pos hc]
    split_ifs <;> exact off _ _ (by omega) (by omega)
  · intro hc
    rw [main_keyStep_of_guard _ _ g]
    simp only [main_switch]
    rw [if_neg (show ¬ s.cursorPosition = 1 by omega),
      if_neg (show ¬ s.cursorPosition = 2 by omega), if_pos hc]
    split_ifs <;> exact off _ _ (by omega) (by omega)
  · intro hc
    rw [main_keyStep_of_guard _ _ g]
    simp only [main_switch]
    rw [if_neg (show ¬ s.cursorPosition = 1 by omega),
      if_neg (show ¬ s.cursorPosition = 2 by omega),
      if_neg (show ¬ s.cursorPosition = 4 by omega), if_pos hc]
    split_ifs <;> exact off _ _ (by omega) (by omega)
  · intro hc
    rw [main_keyStep_of_guard _ _ g]
    simp only [main_switch]
    rw [if_neg (show ¬ s.cursorPosition = 1 by omega),
      if_neg (show ¬ s.cursorPosition = 2 by omega),
      if_neg (show ¬ s.cursorPosition = 4 by omega),
      if_neg (show ¬ s.cursorPosition = 5 by omega), if_pos hc]
    split_ifs <;> exact off _ _ (by omega) (by omega)
  · intro hc
    rw [main_keyStep_of_guard _ _ g]
    simp only [main_switch]
    rw [if_neg (show ¬ s.cursorPosition = 1 by omega),
      if_neg (show ¬ s.cursorPosition = 2 by omega),
      if_neg (show ¬ s.cursorPosition = 4 by omega),
      if_neg (show ¬ s.cursorPosition = 5 by omega),
      if_neg (show ¬ s.cursorPosition = 7 by omega), if_pos hc]
    split_ifs <;> exact off _ _ (by omega) (by omega)

/-- Key handling of an accepted Down, by cursor position. -/
theorem main_keyStep_down_of_guard (s : State) (g : main_guard KEY_DOWN s = true) :
    (s.cursorPosition = 1 → main_keyStep KEY_DOWN s = { s with timer := { s.timer with
        hour := if s.timer.hour ≥ 10 then s.timer.hour - 10 else s.timer.hour } })
      ∧ (s.cursorPosition = 2 → main_keyStep KEY_DOWN s = { s with timer := { s.timer with
        hour := if s.timer.hour > 0 then s.timer.hour - 1 else s.timer.hour } })
      ∧ (s.cursorPosition = 4 → main_keyStep KEY_DOWN s = { s with timer := { s.timer with
        minute := if s.timer.minute ≥ 10 then s.timer.minute - 10 else s.timer.minute } })
      ∧ (s.cursorPosition = 5 → main_keyStep KEY_DOWN s = { s with timer := { s.timer with
        minute := if s.timer.minute > 0 then s.timer.minute - 1 else s.timer.minute } })
      ∧ (s.cursorPosition = 7 → main_keyStep KEY_DOWN s = { s with timer := { s.timer with
        second := if s.timer.second ≥ 10 then s.timer.second - 10 else s.timer.second } })
      ∧ (s.cursorPosition = 8 → main_keyStep KEY_DOWN s = { s with timer := { s.timer with
        second := if s.timer.second > 0 then s.timer.second - 1 else s.timer.second } }) := by
  have off : ∀ (key : Key) (t : Timer), s.cursorPosition ≠ 3 → s.cursorPosition ≠ 6 →
      main_colon key { s with timer := t } = { s with timer := t } :=
    fun key t h3 h6 => main_colon_off_colon key _ h3 h6
  refine ⟨?_, ?_, ?_, ?_, ?_, ?_⟩
  · intro hc
    rw [main_keyStep_of_guard _ _ g]
    simp only [main_switch]
    rw [if_pos hc]
    split_ifs <;> exact off _ _ (by omega) (by omega)
  · intro hc
    rw [main_keyStep_of_guard _ _ g]
    simp only [main_switch]
    rw [if_neg (show ¬ s.cursorPosition = 1 by omega), if_pos hc]
    split_ifs <;> exact off _ _ (by omega) (by omega)
  · intro hc
    rw [main_keyStep_of_guard _ _ g]
    simp only [main_switch]
    rw [if_neg (show ¬ s.cursorPosition = 1 by omega),
      if_neg (show ¬ s.cursorPosition = 2 by omega), if_pos hc]
    split_ifs <;> exact off _ _ (by omega) (by omega)
  · intro hc
    rw [main_keyStep_of_guard _ _ g]
    simp only [main_switch]
    rw [if_neg (show ¬ s.cursorPosition = 1 by omega),
      if_neg (show ¬ s.cursorPosition = 2 by omega),
      if_neg (show ¬ s.cursorPosition = 4 by omega), if_pos hc]
    split_ifs <;> exact off _ _ (by omega) (by omega)
  · intro hc
    rw [main_keyStep_of_guard _ _ g]
    simp only [main_switch]
    rw [if_neg (show ¬ s.cursorPosition = 1 by omega),
      if_neg (show ¬ s.cursorPosition = 2 by omega),
      if_neg (show ¬ s.cursorPosition = 4 by omega),
      if_neg (show ¬ s.cursorPosition = 5 by omega), if_pos hc]
    split_ifs <;> exact off _ _ (by omega) (by omega)
  · intro hc
    rw [main_keyStep_of_guard _ _ g]
    simp only [main_switch]
    rw [if_neg (show ¬ s.cursorPosition = 1 by omega),
      if_neg (show ¬ s.cursorPosition = 2 by omega),
      if_neg (show ¬ s.cursorPosition = 4 by omega),
      if_neg (show ¬ s.cursorPosition = 5 by omega),
      if_neg (show ¬ s.cursorPosition = 7 by omega), if_pos hc]
    split_ifs <;> exact off _ _ (by omega) (by omega)

/-- Claim C6: in Editing mode (`isTicking` and `isOver` false) a newly pressed Up or
Down with the cursor at 1, 2, 4, 5, 7 or 8 changes only the addressed field (1, 2
hour; 4, 5 minute; 7, 8 second) and nothing else in the state.  Up at a tens
position adds 10 if the field is below 90, Up at a units position adds 1 if it is
below 99, Down at a tens position subtracts 10 if it is at least 10, Down at a
units position subtracts 1 if it is above 0; otherwise the field is kept.  So
hour 85 becomes 95 and hour 95 stays 95 under Up at position 1, and second 0 stays
0 under Down at position 8. -/
theorem keyStep_up_down_edits_addressed_field (s : State)
    (hT : s.isTicking = false) (hO : s.isOver = false) :
    (s.previousKey ≠ KEY_UP →
        (s.cursorPosition = 1 → main_keyStep KEY_UP s = { s with timer := { s.timer with
            hour := if s.timer.hour < 90 then s.timer.hour + 10 else s.timer.hour } })
        ∧ (s.cursorPosition = 2 → main_keyStep KEY_UP s = { s with timer := { s.timer with
            hour := if s.timer.hour < 99 then s.timer.hour + 1 else s.timer.hour } })
        ∧ (s.cursorPosition = 4 → main_keyStep KEY_UP s = { s with timer := { s.timer with
            minute := if s.timer.minute < 90 then s.timer.minute + 10 else s.timer.minute } })
        ∧ (s.cursorPosition = 5 → main_keyStep KEY_UP s = { s with timer := { s.timer with
            minute := if s.timer.minute < 99 then s.timer.minute + 1 else s.timer.minute } })
        ∧ (s.cursorPosition = 7 → main_keyStep KEY_UP s = { s with timer := { s.timer with
            second := if s.timer.second < 90 then s.timer.second + 10 else s.timer.second } })
        ∧ (s.cursorPosition = 8 → main_keyStep KEY_UP s = { s with timer := { s.timer with
            second := if s.timer.second < 99 then s.timer.second + 1 else s.timer.second } }))
      ∧ (s.previousKey ≠ KEY_DOWN →
        (s.cursorPosition = 1 → main_keyStep KEY_DOWN s = { s with timer := { s.timer with
            hour := if s.timer.hour ≥ 10 then s.timer.hour - 10 else s.timer.hour } })
        ∧ (s.cursorPosition = 2 → main_keyStep KEY_DOWN s = { s with timer := { s.timer with
            hour := if s.timer.hour > 0 then s.timer.hour - 1 else s.timer.hour } })
        ∧ (s.cursorPosition = 4 → main_keyStep KEY_DOWN s = { s with timer := { s.timer with
            minute := if s.timer.minute ≥ 10 then s.timer.minute - 10 else s.timer.minute } })
        ∧ (s.cursorPosition = 5 → main_keyStep KEY_DOWN s = { s with timer := { s.timer with
            minute := if s.timer.minute > 0 then s.timer.minute - 1 else s.timer.minute } })
        ∧ (s.cursorPosition = 7 → main_keyStep KEY_DOWN s = { s with timer := { s.timer with
            second := if s.timer.second ≥ 10 then s.timer.second - 10 else s.timer.second } })
        ∧ (s.cursorPosition = 8 → main_keyStep KEY_DOWN s = { s with timer := { s.timer with
            second := if s.timer.second > 0 then s.timer.second - 1 else s.timer.second } }))
      ∧ (s.previousKey ≠ KEY_UP → s.cursorPosition = 1 → s.timer.hour = 85 →
          (main_keyStep KEY_UP s).timer.hour = 95)
      ∧ (s.previousKey ≠ KEY_UP → s.cursorPosition = 1 → s.timer.hour = 95 →
          (main_keyStep KEY_UP s).timer.hour = 95)
      ∧ (s.previousKey ≠ KEY_DOWN → s.cursorPosition = 8 → s.timer.second = 0 →
          (main_keyStep KEY_DOWN s).timer.second = 0) := by
  have hUp := fun hp : s.previousKey ≠ KEY_UP =>
    main_keyStep_up_of_guard s (main_guard_editing KEY_UP s hT hO (by decide) hp)
  have hDown := fun hp : s.previousKey ≠ KEY_DOWN =>
    main_keyStep_down_of_guard s (main_guard_editing KEY_DOWN s hT hO (by decide) hp)
  refine ⟨hUp, hDown, ?_, ?_, ?_⟩
  · intro hp hc hv
    rw [(hUp hp).1 hc]
    show (if s.timer.hour < 90 then s.timer.hour + 10 else s.timer.hour) = 95
    rw [hv]
    decide
  · intro hp hc hv
    rw [(hUp hp).1 hc]
    show (if s.timer.hour < 90 then s.timer.hour + 10 else s.timer.hour) = 95
    rw [hv]
    decide
  · intro hp hc hv
    rw [(hDown hp).2.2.2.2.2 hc]
    show (if s.timer.second > 0 then s.timer.second - 1 else s.timer.second) = 0
    rw [hv]
    decide

/-- Hour 85 with Up on the hour-tens digit becomes 95. -/
theorem keyStep_up_down_edits_addressed_field_witness :
    (main_keyStep KEY_UP (stateOf ⟨85, 0, 0, 0⟩ 1 false false KEY_NONE)).timer.hour = 95 :=
  (keyStep_up_down_edits_addressed_field (stateOf ⟨85, 0, 0, 0⟩ 1 false false KEY_NONE)
    rfl rfl).2.2.1 (by decide) rfl rfl

/-- Claim C7: with the cursor unlocked (`isTicking` and `isOver` false) and on one of
the digit positions 1, 2, 4, 5, 7, 8, a newly pressed Left moves it 1 to 1, 2 to 1,
4 to 2, 5 to 4, 7 to 5, 8 to 7 and a newly pressed Right moves it 1 to 2, 2 to 4,
4 to 5, 5 to 7, 7 to 8, 8 to 8: clamped at 1 and 8, the colon columns 3 and 6
skipped in the direction of travel.  Nothing but the cursor changes, so the time
value and the mode are as before. -/
theorem keyStep_left_right_moves_cursor (s : State)
    (hT : s.isTicking = false) (hO : s.isOver = false) :
    (s.previousKey ≠ KEY_LEFT →
        (s.cursorPosition = 1 → main_keyStep KEY_LEFT s = s)
        ∧ (s.cursorPosition = 2 → main_keyStep KEY_LEFT s = { s with cursorPosition := 1 })
        ∧ (s.cursorPosition = 4 → main_keyStep KEY_LEFT s = { s with cursorPosition := 2 })
        ∧ (s.cursorPosition = 5 → main_keyStep KEY_LEFT s = { s with cursorPosition := 4 })
        ∧ (s.cursorPosition = 7 → main_keyStep KEY_LEFT s = { s with cursorPosition := 5 })
        ∧ (s.cursorPosition = 8 → main_keyStep KEY_LEFT s = { s with cursorPosition := 7 }))
      ∧ (s.previousKey ≠ KEY_RIGHT →
        (s.cursorPosition = 1 → main_keyStep KEY_RIGHT s = { s with cursorPosition := 2 })
        ∧ (s.cursorPosition = 2 → main_keyStep KEY_RIGHT s = { s with cursorPosition := 4 })
        ∧ (s.cursorPosition = 4 → main_keyStep KEY_RIGHT s = { s with cursorPosition := 5 })
        ∧ (s.cursorPosition = 5 → main_keyStep KEY_RIGHT s = { s with cursorPosition := 7 })
        ∧ (s.cursorPosition = 7 → main_keyStep KEY_RIGHT s = { s with cursorPosition := 8 })
        ∧ (s.cursorPosition = 8 → main_keyStep KEY_RIGHT s = s)) := by
  have gL : s.previousKey ≠ KEY_LEFT → main_guard KEY_LEFT s = true :=
    fun h => main_guard_editing KEY_LEFT s hT hO (by decide) h
  have gR : s.previousKey ≠ KEY_RIGHT → main_guard KEY_RIGHT s = true :=
    fun h => main_guard_editing KEY_RIGHT s hT hO (by decide) h
  constructor
  · intro hp
    refine ⟨?_, ?_, ?_, ?_, ?_, ?_⟩ <;> intro hc <;> rw [main_keyStep_of_guard _ _ (gL hp)] <;>
      simp [main_switch, main_colon, hc]
  · intro hp
    refine ⟨?_, ?_, ?_, ?_, ?_, ?_⟩ <;> intro hc <;> rw [main_keyStep_of_guard _ _ (gR hp)] <;>
      simp [main_switch, main_colon, hc]

/-- From the minute-tens digit Left jumps over the colon to the hour-units digit. -/
theorem keyStep_left_right_moves_cursor_witness :
    main_keyStep KEY_LEFT (stateOf ⟨0, 0, 0, 0⟩ 4 false false KEY_NONE)
      = stateOf ⟨0, 0, 0, 0⟩ 2 false false KEY_NONE :=
  (keyStep_left_right_moves_cursor (stateOf ⟨0, 0, 0, 0⟩ 4 false false KEY_NONE)
    rfl rfl).1 (by decide) |>.2.2.1 rfl

/-- While counting, a new Select passes the guard. -/
theorem main_guard_select_ticking (s : State) (hT : s.isTicking = true)
    (hp : s.previousKey ≠ KEY_SELECT) : main_guard KEY_SELECT s = true := by
  unfold main_guard
  rw [hT]
  cases hk : s.previousKey <;> simp_all

/-- The pause branch of `case KEY_SELECT`. -/
theorem main_switch_select_ticking (s : State) (hT : s.isTicking = true) :
    main_switch KEY_SELECT s = { s with isTicking := false, cursorPosition := 1 } := by
  simp only [main_switch, hT, if_true]

/-- The start branch of `case KEY_SELECT`, some of hour, minute, second being set. -/
theorem main_switch_select_start (s : State) (hT : s.isTicking = false) (hO : s.isOver = false)
    (hnz : s.timer.hour ≠ 0 ∨ s.timer.minute ≠ 0 ∨ s.timer.second ≠ 0) :
    main_switch KEY_SELECT s = { s with isTicking := true, cursorPosition := -1 } := by
  simp only [main_switch, hT, hO]
  simp [hnz]

/-- The start branch of `case KEY_SELECT` with hour, minute and second all 0. -/
theorem main_switch_select_zero (s : State) (hT : s.isTicking = false) (hO : s.isOver = false)
    (hz : s.timer.hour = 0 ∧ s.timer.minute = 0 ∧ s.timer.second = 0) :
    main_switch KEY_SELECT s = s := by
  obtain ⟨h1, h2, h3⟩ := hz
  simp only [main_switch, hT, hO]
  simp [h1, h2, h3]

/-- Key handling of a new Select while counting: the countdown is paused. -/
theorem main_keyStep_select_ticking (s : State) (hT : s.isTicking = true)
    (hp : s.previousKey ≠ KEY_SELECT) :
    main_keyStep KEY_SELECT s = { s with isTicking := false, cursorPosition := 1 } := by
  rw [main_keyStep_of_guard _ _ (main_guard_select_ticking s hT hp),
    main_switch_select_ticking s hT]
  exact main_colon_off_colon _ _ (by show (1 : Int) ≠ 3; decide)
    (by show (1 : Int) ≠ 6; decide)

/-- Key handling of a new Select in editing mode with a time set: the countdown starts. -/
theorem main_keyStep_select_start (s : State) (hT : s.isTicking = false) (hO : s.isOver = false)
    (hp : s.previousKey ≠ KEY_SELECT)
    (hnz : s.timer.hour ≠ 0 ∨ s.timer.minute ≠ 0 ∨ s.timer.second ≠ 0) :
    main_keyStep KEY_SELECT s = { s with isTicking := true, cursorPosition := -1 } := by
  rw [main_keyStep_of_guard _ _ (main_guard_editing KEY_SELECT s hT hO (by decide) hp),
    main_switch_select_start s hT hO hnz]
  exact main_colon_off_colon _ _ (by show (-1 : Int) ≠ 3; decide)
    (by show (-1 : Int) ≠ 6; decide)

/-- Key handling of a new Select in editing mode with no time set does nothing. -/
theorem main_keyStep_select_zero (s : State) (hT : s.isTicking = false) (hO : s.isOver = false)
    (hp : s.previousKey ≠ KEY_SELECT)
    (hz : s.timer.hour = 0 ∧ s.timer.minute = 0 ∧ s.timer.second = 0)
    (c3 : s.cursorPosition ≠ 3) (c6 : s.cursorPosition ≠ 6) :
    main_keyStep KEY_SELECT s = s := by
  rw [main_keyStep_of_guard _ _ (main_guard_editing KEY_SELECT s hT hO (by decide) hp),
    main_switch_select_zero s hT hO hz]
  exact main_colon_off_colon _ _ c3 c6

/-- Claim C8: in Editing mode (`isTicking` and `isOver` false) a newly pressed Select
passes the guard, and its `case KEY_SELECT` starts the countdown when hour, minute
or second differs from 0 (`isTicking` becomes true, the cursor is locked at -1, the
time value and everything else are as before) and is a no-op when they are all 0.
The complete key-handling step gives the same state; for the no-op this holds
with the cursor on a digit position or locked, i.e. not on a colon column. -/
theorem keyStep_select_in_editing (s : State)
    (hT : s.isTicking = false) (hO : s.isOver = false) (hp : s.previousKey ≠ KEY_SELECT) :
    main_guard KEY_SELECT s = true
      ∧ ((s.timer.hour ≠ 0 ∨ s.timer.minute ≠ 0 ∨ s.timer.second ≠ 0) →
          main_switch KEY_SELECT s = { s with isTicking := true, cursorPosition := -1 }
            ∧ main_keyStep KEY_SELECT s = { s with isTicking := true, cursorPosition := -1 })
      ∧ ((s.timer.hour = 0 ∧ s.timer.minute = 0 ∧ s.timer.second = 0) →
          main_switch KEY_SELECT s = s
            ∧ (s.cursorPosition ≠ 3 → s.cursorPosition ≠ 6 → main_keyStep KEY_SELECT s = s)) :=
  ⟨main_guard_editing KEY_SELECT s hT hO (by decide) hp,
   fun hnz => ⟨main_switch_select_start s hT hO hnz, main_keyStep_select_start s hT hO hp hnz⟩,
   fun hz => ⟨main_switch_select_zero s hT hO hz, main_keyStep_select_zero s hT hO hp hz⟩⟩

/-- Fifty seconds on the clock: Select starts the countdown. -/
theorem keyStep_select_in_editing_witness :
    main_keyStep KEY_SELECT (stateOf ⟨0, 0, 50, 0⟩ 7 false false KEY_NONE)
      = stateOf ⟨0, 0, 50, 0⟩ (-1) true false KEY_NONE :=
  ((keyStep_select_in_editing (stateOf ⟨0, 0, 50, 0⟩ 7 false false KEY_NONE)
    rfl rfl (by decide)).2.1 (by decide)).2

/-- Claim C9, as stated, fails: pausing a countdown of fifty seconds leaves the
cursor at position 1, the hour-tens digit, not at position 8. -/
theorem keyStep_select_pause_cursor_not_eight :
    (stateOf ⟨0, 0, 50, 0⟩ (-1) true false KEY_NONE).isTicking = true
      ∧ (stateOf ⟨0, 0, 50, 0⟩ (-1) true false KEY_NONE).previousKey ≠ KEY_SELECT
      ∧ main_keyStep KEY_SELECT (stateOf ⟨0, 0, 50, 0⟩ (-1) true false KEY_NONE)
          = stateOf ⟨0, 0, 50, 0⟩ 1 false false KEY_NONE
      ∧ (main_keyStep KEY_SELECT (stateOf ⟨0, 0, 50, 0⟩ (-1) true false KEY_NONE)).cursorPosition
          ≠ 8 := by
  decide

/-- Claim C9, amended: for every Counting state (`isTicking` true, `isOver` false) a
newly pressed Select clears `isTicking`, so that the flags read Paused
(`isTicking` false, `isOver` false), and unlocks the cursor to position 1, the
hour-tens digit; the time value and everything else are unchanged. -/
theorem keyStep_select_pauses (s : State)
    (hT : s.isTicking = true) (hO : s.isOver = false) (hp : s.previousKey ≠ KEY_SELECT) :
    main_keyStep KEY_SELECT s = { s with isTicking := false, cursorPosition := 1 }
      ∧ (main_keyStep KEY_SELECT s).isTicking = false
      ∧ (main_keyStep KEY_SELECT s).isOver = false
      ∧ (main_keyStep KEY_SELECT s).cursorPosition = 1
      ∧ (main_keyStep KEY_SELECT s).timer = s.timer := by
  have hstep := main_keyStep_select_ticking s hT hp
  refine ⟨hstep, ?_, ?_, ?_, ?_⟩
  · rw [hstep]
  · rw [hstep]; exact hO
  · rw [hstep]
  · rw [hstep]

/-- Pausing at fifty seconds. -/
theorem keyStep_select_pauses_witness :
    main_keyStep KEY_SELECT (stateOf ⟨0, 0, 50, 0⟩ (-1) true false KEY_NONE)
      = stateOf ⟨0, 0, 50, 0⟩ 1 false false KEY_NONE :=
  (keyStep_select_pauses (stateOf ⟨0, 0, 50, 0⟩ (-1) true false KEY_NONE)
    rfl rfl (by decide)).1

/-- With `KEY_NONE` sampled the key handling does nothing. -/
theorem main_keyStep_none (s : State) : main_keyStep KEY_NONE s = s := by
  unfold main_keyStep main_guard
  simp

/-- The two iterations that pause a countdown: Select is sampled, then released. -/
theorem main_loop_pause_release (c : State) (hT : c.isTicking = true)
    (hp : c.previousKey ≠ KEY_SELECT) :
    main_loop KEY_NONE (main_loop KEY_SELECT c)
      = { c with isTicking := false, cursorPosition := 1, previousKey := KEY_NONE } := by
  have h1 : main_loop KEY_SELECT c
      = { c with isTicking := false, cursorPosition := 1, previousKey := KEY_SELECT } := by
    unfold main_loop
    rw [main_keyStep_select_ticking c hT hp]
    rfl
  rw [h1]
  unfold main_loop
  rw [main_keyStep_none]
  rfl

/-- Claim C10: evaluation of the code at the input on which it breaks the claim.
The keys Up, release, Select start a countdown of one second; two ticks later the
timer is counting with 0:00:00.980 left, and `tick` itself still treats that value
as time remaining (it goes on counting, to 970).  Select pauses; after the
release a new Select should count again with the cursor locked, but the start
test of `case KEY_SELECT` looks at hour, minute and second only: the key handling
returns the paused state as it is, `isTicking` clear and the cursor at 1. -/
theorem select_after_late_pause_does_not_resume :
    (main_run [KEY_UP, KEY_NONE, KEY_SELECT, KEY_NONE] main_init).isTicking = true
      ∧ (main_run [KEY_UP, KEY_NONE, KEY_SELECT, KEY_NONE] main_init).timer = ⟨0, 0, 0, 980⟩
      ∧ (tick (main_run [KEY_UP, KEY_NONE, KEY_SELECT, KEY_NONE] main_init)).isTicking = true
      ∧ (tick (main_run [KEY_UP, KEY_NONE, KEY_SELECT, KEY_NONE] main_init)).timer
          = ⟨0, 0, 0, 970⟩
      ∧ main_run [KEY_UP, KEY_NONE, KEY_SELECT, KEY_NONE, KEY_SELECT, KEY_NONE] main_init
          = { stateOf ⟨0, 0, 0, 980⟩ 1 false false KEY_NONE with tickCount := 2 }
      ∧ main_keyStep KEY_SELECT
            (main_run [KEY_UP, KEY_NONE, KEY_SELECT, KEY_NONE, KEY_SELECT, KEY_NONE] main_init)
          = { stateOf ⟨0, 0, 0, 980⟩ 1 false false KEY_NONE with tickCount := 2 }
      ∧ (main_keyStep KEY_SELECT
            (main_run [KEY_UP, KEY_NONE, KEY_SELECT, KEY_NONE, KEY_SELECT, KEY_NONE] main_init)
          ).isTicking = false
      ∧ (main_keyStep KEY_SELECT
            (main_run [KEY_UP, KEY_NONE, KEY_SELECT, KEY_NONE, KEY_SELECT, KEY_NONE] main_init)
          ).cursorPosition ≠ -1 := by
  decide

/-- Where the code does resume: after a pause and the release of the key, a new
Select counts again and locks the cursor whenever hour, minute or second differs
from 0. -/
theorem select_after_pause_resumes_with_seconds_left (c : State)
    (hT : c.isTicking = true) (hO : c.isOver = false) (hp : c.previousKey ≠ KEY_SELECT)
    (hnz : c.timer.hour ≠ 0 ∨ c.timer.minute ≠ 0 ∨ c.timer.second ≠ 0) :
    main_keyStep KEY_SELECT (main_loop KEY_NONE (main_loop KEY_SELECT c))
      = { c with isTicking := true, cursorPosition := -1, previousKey := KEY_NONE } := by
  rw [main_loop_pause_release c hT hp]
  exact main_keyStep_select_start _ rfl hO (by show KEY_NONE ≠ KEY_SELECT; decide) hnz

/-! ## Reset, locked modes and repeat suppression -/

/-- After expiry (`isOver` set, `isTicking` clear) a new Select passes the guard. -/
theorem main_guard_select_over (s : State) (hO : s.isOver = true)
    (hp : s.previousKey ≠ KEY_SELECT) : main_guard KEY_SELECT s = true := by
  unfold main_guard
  rw [hO]
  cases hk : s.previousKey <;> simp_all

/-- The reset branch of `case KEY_SELECT`. -/
theorem main_switch_select_over (s : State) (hT : s.isTicking = false) (hO : s.isOver = true) :
    main_switch KEY_SELECT s
      = { s with timer := ⟨0, 0, 0, 0⟩, cursorPosition := 8, isOver := false,
                 keypad := init_keypad s.keypad } := by
  simp [main_switch, hT, hO, initUI, memsetTimer]

/-- Key handling of a new Select after expiry: everything is reset. -/
theorem main_keyStep_select_over (s : State) (hT : s.isTicking = false) (hO : s.isOver = true)
    (hp : s.previousKey ≠ KEY_SELECT) :
    main_keyStep KEY_SELECT s
      = { s with timer := ⟨0, 0, 0, 0⟩, cursorPosition := 8, isOver := false,
                 keypad := init_keypad s.keypad } := by
  rw [main_keyStep_of_guard _ _ (main_guard_select_over s hO hp),
    main_switch_select_over s hT hO]
  exact main_colon_off_colon _ _ (by show (8 : Int) ≠ 3; decide)
    (by show (8 : Int) ≠ 6; decide)

/-- While counting or expired every key but Select is stopped by the guard. -/
theorem main_guard_locked (key : Key) (s : State)
    (hm : s.isTicking = true ∨ s.isOver = true) (hk : key ≠ KEY_SELECT) :
    main_guard key s = false := by
  unfold main_guard
  rcases hm with h | h <;> rw [h] <;> cases key <;> simp_all

/-- A key the guard stops leaves the state as it is. -/
theorem main_keyStep_of_not_guard (key : Key) (s : State) (h : main_guard key s = false) :
    main_keyStep key s = s := by
  unfold main_keyStep
  rw [h]
  rfl

/-- Claim C12: in every state whose mode is Counting (`isTicking` set) or Expired
(`isOver` set) the key-handling step for Left, Right, Up or Down is stopped by the
guard and leaves the whole state, hence time value, cursor and mode flags,
unchanged; and in every state the key-handling step for `KEY_NONE` does the same. -/
theorem keyStep_locked_or_none_is_noop (s : State) :
    ((s.isTicking = true ∨ s.isOver = true) →
        main_keyStep KEY_LEFT s = s ∧ main_keyStep KEY_RIGHT s = s
          ∧ main_keyStep KEY_UP s = s ∧ main_keyStep KEY_DOWN s = s)
      ∧ main_keyStep KEY_NONE s = s :=
  ⟨fun hm =>
    ⟨main_keyStep_of_not_guard _ _ (main_guard_locked KEY_LEFT s hm (by decide)),
     main_keyStep_of_not_guard _ _ (main_guard_locked KEY_RIGHT s hm (by decide)),
     main_keyStep_of_not_guard _ _ (main_guard_locked KEY_UP s hm (by decide)),
     main_keyStep_of_not_guard _ _ (main_guard_locked KEY_DOWN s hm (by decide))⟩,
   main_keyStep_none s⟩

/-- An iteration whose key handling leaves the timer stopped only records the key. -/
theorem main_loop_of_not_ticking (key : Key) (s : State)
    (h : (main_keyStep key s).isTicking = false) :
    main_loop key s = { main_keyStep key s with previousKey := key } := by
  unfold main_loop
  simp only [h]
  rfl

/-- Every iteration records the sampled key as the previous key. -/
theorem main_loop_previousKey (key : Key) (s : State) : (main_loop key s).previousKey = key := by
  unfold main_loop tick
  dsimp only
  split_ifs <;> rfl

/-- The guard of the main loop, spelled out. -/
theorem main_guard_iff (key : Key) (s : State) :
    main_guard key s = true ↔
      (key ≠ KEY_NONE ∧ key ≠ s.previousKey
        ∧ ((s.isTicking = false ∧ s.isOver = false) ∨ key = KEY_SELECT)) := by
  unfold main_guard
  cases key <;> cases s.previousKey <;> cases s.isTicking <;> cases s.isOver <;> simp

/-- Claim C13, as stated, fails: after Up, release, Select, release the timer is
counting and the last sample was `KEY_NONE`; a newly pressed Up differs from the
preceding sample and is not `KEY_NONE`, yet the guard stops it and no key action
is performed. -/
theorem new_key_not_acted_upon_while_counting :
    (main_run [KEY_UP, KEY_NONE, KEY_SELECT, KEY_NONE] main_init).isTicking = true
      ∧ (main_run [KEY_UP, KEY_NONE, KEY_SELECT, KEY_NONE] main_init).previousKey = KEY_NONE
      ∧ KEY_UP ≠ (main_run [KEY_UP, KEY_NONE, KEY_SELECT, KEY_NONE] main_init).previousKey
      ∧ KEY_UP ≠ KEY_NONE
      ∧ main_guard KEY_UP (main_run [KEY_UP, KEY_NONE, KEY_SELECT, KEY_NONE] main_init) = false
      ∧ main_keyStep KEY_UP (main_run [KEY_UP, KEY_NONE, KEY_SELECT, KEY_NONE] main_init)
          = main_run [KEY_UP, KEY_NONE, KEY_SELECT, KEY_NONE] main_init := by
  decide

/-- Claim C13, amended: for every state and every key, a loop iteration whose sampled
key equals the key sampled in the preceding iteration performs no key action (the
guard stops it and the key handling returns the state as it is); a key that
differs from the preceding sample and is not `KEY_NONE` is acted upon (the switch
and the colon redirect run) exactly when the mode accepts it: any such key while
`isTicking` and `isOver` are both clear, only Select otherwise.  Consequently,
from Editing with previous key `KEY_NONE`, cursor 8 and second 0, the samples Up,
Up, Up, None, Up perform exactly two increments: second is 2. -/
theorem keyStep_repeat_suppression (s : State) (k : Key) :
    (s.previousKey = k → main_guard k s = false ∧ main_keyStep k s = s)
      ∧ main_keyStep k (main_loop k s) = main_loop k s
      ∧ (k ≠ s.previousKey → k ≠ KEY_NONE →
          (main_guard k s = true ↔ ((s.isTicking = false ∧ s.isOver = false) ∨ k = KEY_SELECT)))
      ∧ (main_guard k s = true → main_keyStep k s = main_colon k (main_switch k s))
      ∧ (main_guard k s = false → main_keyStep k s = s)
      ∧ (s.isTicking = false → s.isOver = false → s.previousKey = KEY_NONE →
          s.cursorPosition = 8 → s.timer.second = 0 →
          main_run [KEY_UP, KEY_UP, KEY_UP, KEY_NONE, KEY_UP] s
            = { s with timer := { s.timer with second := 2 }, previousKey := KEY_UP }) := by
  have hrep : ∀ q : State, q.previousKey = k → main_guard k q = false := by
    intro q hq
    cases hg : main_guard k q
    · rfl
    · exact absurd hq.symm ((main_guard_iff k q).mp hg).2.1
  refine ⟨fun hp => ⟨hrep s hp, main_keyStep_of_not_guard _ _ (hrep s hp)⟩,
    main_keyStep_of_not_guard _ _ (hrep _ (main_loop_previousKey k s)), ?_,
    main_keyStep_of_guard k s, main_keyStep_of_not_guard k s, ?_⟩
  · intro h1 h2
    rw [main_guard_iff]
    constructor
    · exact fun h => h.2.2
    · exact fun h => ⟨h2, h1, h⟩
  · intro hT hO hp hc hs
    obtain ⟨⟨hr, mi, se, ms⟩, c, tc, it, io, pk, kp⟩ := s
    simp only at hT hO hp hc hs
    subst hT hO hp hc hs
    simp [main_run, main_loop, main_keyStep, main_guard, main_switch, main_colon]

/-- Claim C15, as stated, fails: the tick from (0, 0, 1, 5) gives (0, 0, 0, 995), and
the next call of `tick` does not take the expiry branch: it decrements to
(0, 0, 0, 985) and leaves `isTicking` set and `isOver` clear. -/
theorem tick_after_995_does_not_expire :
    (tick (stateOf ⟨0, 0, 1, 5⟩ (-1) true false KEY_NONE)).timer = ⟨0, 0, 0, 995⟩
      ∧ (tick (tick (stateOf ⟨0, 0, 1, 5⟩ (-1) true false KEY_NONE))).timer = ⟨0, 0, 0, 985⟩
      ∧ (tick (tick (stateOf ⟨0, 0, 1, 5⟩ (-1) true false KEY_NONE))).timer ≠ ⟨0, 0, 0, 0⟩
      ∧ (tick (tick (stateOf ⟨0, 0, 1, 5⟩ (-1) true false KEY_NONE))).isTicking = true
      ∧ (tick (tick (stateOf ⟨0, 0, 1, 5⟩ (-1) true false KEY_NONE))).isOver = false := by
  decide

/-- Claim C15, amended: after one `tick` from (0, 0, 1, 5) has produced (0, 0, 0, 995),
the next call of `tick` does not fire the all-zero detection: it decrements to
(0, 0, 0, 985) and changes nothing else.  The detection fires, before any
decrement, on a call made with the all-zero value: from (0, 0, 0, 10) one `tick`
gives (0, 0, 0, 0) with flags and cursor as before, and the next call sets
`isTicking` false and `isOver` true, locks the cursor and leaves the time frozen at
(0, 0, 0, 0). -/
theorem tick_next_call_after_borrow (s : State) :
    tick { s with timer := ⟨0, 0, 1, 5⟩ } = { s with timer := ⟨0, 0, 0, 995⟩ }
      ∧ tick (tick { s with timer := ⟨0, 0, 1, 5⟩ }) = { s with timer := ⟨0, 0, 0, 985⟩ }
      ∧ tick { s with timer := ⟨0, 0, 0, 10⟩ } = { s with timer := ⟨0, 0, 0, 0⟩ }
      ∧ tick (tick { s with timer := ⟨0, 0, 0, 10⟩ })
          = { s with timer := ⟨0, 0, 0, 0⟩, isTicking := false, isOver := true,
                     cursorPosition := -1 } := by
  have h1 : tick { s with timer := ⟨0, 0, 1, 5⟩ } = { s with timer := ⟨0, 0, 0, 995⟩ } := by
    simp [tick]
  have h2 : tick { s with timer := ⟨0, 0, 0, 995⟩ } = { s with timer := ⟨0, 0, 0, 985⟩ } := by
    simp [tick]
  have h3 : tick { s with timer := ⟨0, 0, 0, 10⟩ } = { s with timer := ⟨0, 0, 0, 0⟩ } := by
    simp [tick]
  have h4 : tick { s with timer := ⟨0, 0, 0, 0⟩ }
      = { s with timer := ⟨0, 0, 0, 0⟩, isTicking := false, isOver := true,
                 cursorPosition := -1 } := by
    simp [tick]
  exact ⟨h1, by rw [h1, h2], h3, by rw [h3, h4]⟩

/-! ## Counting a number of seconds down to zero -/

/-- One `tick` of a countdown of seconds only (hour and minute 0, milliseconds a
multiple of 10 below 1000) with at least 10 ms left: the same kind of value, 10 ms
less, everything else untouched. -/
theorem tick_seconds_step (s : State) (h0 : s.timer.hour = 0) (m0 : s.timer.minute = 0)
    (hs : 0 ≤ s.timer.second) (hms : 0 ≤ s.timer.millisecond)
    (hlt : s.timer.millisecond < 1000) (hmod : s.timer.millisecond % 10 = 0)
    (hpos : 10 ≤ s.timer.second * 1000 + s.timer.millisecond) :
    ∃ sec ms : Int, tick s = { s with timer := ⟨0, 0, sec, ms⟩ }
      ∧ 0 ≤ sec ∧ 0 ≤ ms ∧ ms < 1000 ∧ ms % 10 = 0
      ∧ sec * 1000 + ms = s.timer.second * 1000 + s.timer.millisecond - 10 := by
  have hg : ¬(s.timer.hour ≤ 0 ∧ s.timer.minute ≤ 0 ∧ s.timer.second ≤ 0
      ∧ s.timer.millisecond ≤ 0) := by
    rintro ⟨-, -, a, b⟩
    omega
  rw [tick_of_positive s hg, h0, m0]
  by_cases h1 : s.timer.millisecond - 10 < 0
  · have hsec : ¬ s.timer.second - 1 < 0 := by omega
    rw [if_pos h1, if_neg hsec]
    exact ⟨s.timer.second - 1, s.timer.millisecond - 10 + 1000, rfl,
      by omega, by omega, by omega, by omega, by omega⟩
  · rw [if_neg h1]
    exact ⟨s.timer.second, s.timer.millisecond - 10, rfl,
      by omega, by omega, by omega, by omega, by omega⟩

/-- A number `n` of calls of `tick` on a countdown of seconds only, with at least
`10 * n` ms left: 10 ms less per call, flags, cursor and the rest untouched. -/
theorem tick_iterate_seconds (n : Nat) (s : State)
    (h0 : s.timer.hour = 0) (m0 : s.timer.minute = 0)
    (hs : 0 ≤ s.timer.second) (hms : 0 ≤ s.timer.millisecond)
    (hlt : s.timer.millisecond < 1000) (hmod : s.timer.millisecond % 10 = 0)
    (hn : 10 * (n : Int) ≤ s.timer.second * 1000 + s.timer.millisecond) :
    ∃ sec ms : Int, Nat.iterate tick n s = { s with timer := ⟨0, 0, sec, ms⟩ }
      ∧ 0 ≤ sec ∧ 0 ≤ ms ∧ ms < 1000 ∧ ms % 10 = 0
      ∧ sec * 1000 + ms = s.timer.second * 1000 + s.timer.millisecond - 10 * (n : Int) := by
  induction n with
  | zero =>
    refine ⟨s.timer.second, s.timer.millisecond, ?_, hs, hms, hlt, hmod, by simp⟩
    obtain ⟨⟨hr, mi, se, ms⟩, c, tc, it, io, pk, kp⟩ := s
    simp only at h0 m0
    subst h0 m0
    rfl
  | succ n ih =>
    obtain ⟨sec, ms, hr, a, b, c, d, e⟩ := ih (by push_cast at hn; omega)
    rw [Function.iterate_succ_apply', hr]
    obtain ⟨sec2, ms2, hr2, a2, b2, c2, d2, e2⟩ :=
      tick_seconds_step { s with timer := ⟨0, 0, sec, ms⟩ } rfl rfl a b c d
        (by show 10 ≤ sec * 1000 + ms; push_cast at hn; omega)
    refine ⟨sec2, ms2, hr2, a2, b2, c2, d2, ?_⟩
    have e3 : sec2 * 1000 + ms2 = sec * 1000 + ms - 10 := e2
    push_cast
    omega

/-- The call of `tick` made with the all-zero value. -/
theorem tick_at_zero (s : State) (h : s.timer = ⟨0, 0, 0, 0⟩) :
    tick s = { s with isTicking := false, isOver := true, cursorPosition := -1 } := by
  apply tick_of_nonpositive
  rw [h]
  decide

/-- An idle-key iteration while counting: `tick`, then the refresh counter. -/
theorem main_loop_none_ticking (s : State) (hT : s.isTicking = true) :
    main_loop KEY_NONE s
      = { tick s with
          previousKey := KEY_NONE
          tickCount := if (tick s).tickCount + 1 = 10 then 0 else (tick s).tickCount + 1 } := by
  unfold main_loop
  rw [main_keyStep_none]
  dsimp only
  rw [if_pos hT]
  unfold tick
  dsimp only
  split_ifs <;> rfl

/-- Running the loop over two key sequences in a row. -/
theorem main_run_append (ks ls : List Key) (s : State) :
    main_run (ks ++ ls) s = main_run ls (main_run ks s) := by
  unfold main_run
  rw [List.foldl_append]

/-- One more idle-key iteration at the end of a run of idle-key iterations. -/
theorem main_run_replicate_succ (n : Nat) (s : State) :
    main_run (List.replicate (n + 1) KEY_NONE) s
      = main_loop KEY_NONE (main_run (List.replicate n KEY_NONE) s) := by
  rw [List.replicate_succ', main_run_append]
  rfl

/-- A number `n` of idle-key iterations while counting seconds only, with at least
`10 * n` ms left: the timer loses 10 ms per iteration and only the refresh counter
and the key memory change besides. -/
theorem main_run_none_seconds (n : Nat) (s : State) (hT : s.isTicking = true)
    (h0 : s.timer.hour = 0) (m0 : s.timer.minute = 0)
    (hs : 0 ≤ s.timer.second) (hms : 0 ≤ s.timer.millisecond)
    (hlt : s.timer.millisecond < 1000) (hmod : s.timer.millisecond % 10 = 0)
    (hn : 10 * (n : Int) ≤ s.timer.second * 1000 + s.timer.millisecond) :
    ∃ (sec ms tc : Int) (pk : Key),
      main_run (List.replicate n KEY_NONE) s
          = { s with timer := ⟨0, 0, sec, ms⟩, tickCount := tc, previousKey := pk }
        ∧ 0 ≤ sec ∧ 0 ≤ ms ∧ ms < 1000 ∧ ms % 10 = 0
        ∧ sec * 1000 + ms = s.timer.second * 1000 + s.timer.millisecond - 10 * (n : Int) := by
  induction n with
  | zero =>
    refine ⟨s.timer.second, s.timer.millisecond, s.tickCount, s.previousKey, ?_,
      hs, hms, hlt, hmod, by simp⟩
    obtain ⟨⟨hr, mi, se, ms⟩, c, tc, it, io, pk, kp⟩ := s
    simp only at h0 m0
    subst h0 m0
    rfl
  | succ n ih =>
    obtain ⟨sec, ms, tc, pk, hr, a, b, c, d, e⟩ := ih (by push_cast at hn; omega)
    rw [main_run_replicate_succ, hr,
      main_loop_none_ticking
        { s with timer := ⟨0, 0, sec, ms⟩, tickCount := tc, previousKey := pk } hT]
    obtain ⟨sec2, ms2, hr2, a2, b2, c2, d2, e2⟩ :=
      tick_seconds_step { s with timer := ⟨0, 0, sec, ms⟩, tickCount := tc, previousKey := pk }
        rfl rfl a b c d (by show 10 ≤ sec * 1000 + ms; push_cast at hn; omega)
    rw [hr2]
    refine ⟨sec2, ms2, _, KEY_NONE, rfl, a2, b2, c2, d2, ?_⟩
    have e3 : sec2 * 1000 + ms2 = sec * 1000 + ms - 10 := e2
    push_cast
    omega

/-- A time value of seconds and milliseconds that adds up to nothing is all-zero. -/
theorem seconds_zero_of_total (sec ms : Int) (a : 0 ≤ sec) (b : 0 ≤ ms)
    (e : sec * 1000 + ms = 0) : (⟨0, 0, sec, ms⟩ : Timer) = ⟨0, 0, 0, 0⟩ := by
  have h1 : sec = 0 := by omega
  have h2 : ms = 0 := by omega
  rw [h1, h2]

/-- Fifty seconds take exactly 5000 calls of `tick` to reach 0:00:00.000, and the
timer is still counting then. -/
theorem tick_5000_from_fifty_seconds :
    Nat.iterate tick 5000 (stateOf ⟨0, 0, 50, 0⟩ (-1) true false KEY_NONE)
      = stateOf ⟨0, 0, 0, 0⟩ (-1) true false KEY_NONE := by
  obtain ⟨sec, ms, hr, a, b, -, -, e⟩ :=
    tick_iterate_seconds 5000 (stateOf ⟨0, 0, 50, 0⟩ (-1) true false KEY_NONE)
      rfl rfl (by decide) (by decide) (by decide) (by decide) (by decide)
  rw [hr, seconds_zero_of_total sec ms a b (by rw [e]; decide)]
  rfl

/-- The scenario up to the start: the timer shows fifty seconds, cursor on the
seconds-tens digit. -/
theorem main_run_scenarioKeys :
    main_run scenarioKeys main_init = stateOf ⟨0, 0, 50, 0⟩ 7 false false KEY_NONE := by
  decide

/-- The iteration that starts the scenario countdown; it already makes the first
call of `tick`. -/
theorem main_loop_scenario_start :
    main_loop KEY_SELECT (stateOf ⟨0, 0, 50, 0⟩ 7 false false KEY_NONE)
      = { stateOf ⟨0, 0, 49, 990⟩ (-1) true false KEY_SELECT with tickCount := 1 } := by
  decide

/-- The scenario countdown in the main loop: the starting iteration and 4999 idle
ones make 5000 calls of `tick`; the time is 0:00:00.000 and the timer is still
counting. -/
theorem main_run_scenario_5000_ticks :
    ∃ (tc : Int) (pk : Key),
      main_run (scenarioKeys ++ KEY_SELECT :: List.replicate 4999 KEY_NONE) main_init
        = { stateOf ⟨0, 0, 0, 0⟩ (-1) true false pk with tickCount := tc } := by
  have hsplit : scenarioKeys ++ KEY_SELECT :: List.replicate 4999 KEY_NONE
      = (scenarioKeys ++ [KEY_SELECT]) ++ List.replicate 4999 KEY_NONE := by
    rw [List.append_assoc]
    rfl
  rw [hsplit, main_run_append, main_run_append, main_run_scenarioKeys]
  have hstart : main_run [KEY_SELECT] (stateOf ⟨0, 0, 50, 0⟩ 7 false false KEY_NONE)
      = { stateOf ⟨0, 0, 49, 990⟩ (-1) true false KEY_SELECT with tickCount := 1 } :=
    main_loop_scenario_start
  rw [hstart]
  obtain ⟨sec, ms, tc, pk, hr, a, b, -, -, e⟩ :=
    main_run_none_seconds 4999
      { stateOf ⟨0, 0, 49, 990⟩ (-1) true false KEY_SELECT with tickCount := 1 }
      rfl rfl rfl (by decide) (by decide) (by decide) (by decide) (by decide)
  refine ⟨tc, pk, ?_⟩
  rw [hr, seconds_zero_of_total sec ms a b (by rw [e]; decide)]
  rfl

/-- A run over a single sample is one iteration. -/
theorem main_run_singleton (k : Key) (s : State) : main_run [k] s = main_loop k s := rfl

/-- The scenario countdown one iteration later: the 5001st call of `tick` finds the
all-zero value and expires. -/
theorem main_run_scenario_expired :
    ∃ tc : Int,
      main_run (scenarioKeys ++ KEY_SELECT :: List.replicate 5000 KEY_NONE) main_init
        = { stateOf ⟨0, 0, 0, 0⟩ (-1) false true KEY_NONE with tickCount := tc } := by
  have hsplit : scenarioKeys ++ KEY_SELECT :: List.replicate 5000 KEY_NONE
      = (scenarioKeys ++ KEY_SELECT :: List.replicate 4999 KEY_NONE) ++ [KEY_NONE] := by
    rw [List.append_assoc, List.cons_append, ← List.replicate_succ']
  obtain ⟨tc, pk, hr⟩ := main_run_scenario_5000_ticks
  rw [hsplit, main_run_append, hr, main_run_singleton,
    main_loop_none_ticking _ rfl, tick_at_zero _ rfl]
  exact ⟨_, rfl⟩

/-- Claim C14, as stated, fails: Select starts the countdown of fifty seconds, and
after 5000 calls of `tick` the time value is 0:00:00.000 but the mode is not
Expired: `isTicking` is still set and `isOver` clear.  The same holds in the main
loop after the starting iteration and 4999 idle ones, which together make those
5000 calls. -/
theorem scenario_still_counting_after_5000_ticks :
    main_keyStep KEY_SELECT (main_run scenarioKeys main_init)
        = stateOf ⟨0, 0, 50, 0⟩ (-1) true false KEY_NONE
      ∧ (Nat.iterate tick 5000 (stateOf ⟨0, 0, 50, 0⟩ (-1) true false KEY_NONE)).timer
          = ⟨0, 0, 0, 0⟩
      ∧ (Nat.iterate tick 5000 (stateOf ⟨0, 0, 50, 0⟩ (-1) true false KEY_NONE)).isTicking = true
      ∧ (Nat.iterate tick 5000 (stateOf ⟨0, 0, 50, 0⟩ (-1) true false KEY_NONE)).isOver = false
      ∧ (main_run (scenarioKeys ++ KEY_SELECT :: List.replicate 4999 KEY_NONE) main_init).isTicking
          = true
      ∧ (main_run (scenarioKeys ++ KEY_SELECT :: List.replicate 4999 KEY_NONE) main_init).isOver
          = false := by
  obtain ⟨tc, pk, hr⟩ := main_run_scenario_5000_ticks
  rw [tick_5000_from_fifty_seconds, hr, main_run_scenarioKeys]
  exact ⟨by decide, rfl, rfl, rfl, rfl, rfl⟩

/-- Claim C14, amended: from the initial state (Editing, time all-zero, cursor 8)
Select is a no-op; after Left the cursor is at 7, and after five separate presses
of Up second is 50; Select then makes the mode Counting with the cursor locked;
after 5000 calls of `tick` (10 ms each) the time value is 0:00:00.000 and the mode
is still Counting; the next call of `tick`, made by the following loop iteration,
makes the mode Expired with the time value still all-zero; a following Select
resets to Editing with time zero and the cursor at position 8. -/
theorem scenario_end_to_end :
    main_loop KEY_SELECT main_init = { main_init with previousKey := KEY_SELECT }
      ∧ (main_run [KEY_SELECT, KEY_LEFT] main_init).cursorPosition = 7
      ∧ main_run scenarioKeys main_init = stateOf ⟨0, 0, 50, 0⟩ 7 false false KEY_NONE
      ∧ main_keyStep KEY_SELECT (main_run scenarioKeys main_init)
          = stateOf ⟨0, 0, 50, 0⟩ (-1) true false KEY_NONE
      ∧ Nat.iterate tick 5000 (stateOf ⟨0, 0, 50, 0⟩ (-1) true false KEY_NONE)
          = stateOf ⟨0, 0, 0, 0⟩ (-1) true false KEY_NONE
      ∧ Nat.iterate tick 5001 (stateOf ⟨0, 0, 50, 0⟩ (-1) true false KEY_NONE)
          = stateOf ⟨0, 0, 0, 0⟩ (-1) false true KEY_NONE
      ∧ (∃ (tc : Int) (pk : Key),
          main_run (scenarioKeys ++ KEY_SELECT :: List.replicate 4999 KEY_NONE) main_init
            = { stateOf ⟨0, 0, 0, 0⟩ (-1) true false pk with tickCount := tc })
      ∧ (∃ tc : Int,
          main_run (scenarioKeys ++ KEY_SELECT :: List.replicate 5000 KEY_NONE) main_init
              = { stateOf ⟨0, 0, 0, 0⟩ (-1) false true KEY_NONE with tickCount := tc }
            ∧ main_run (scenarioKeys ++ KEY_SELECT :: List.replicate 5000 KEY_NONE ++ [KEY_SELECT])
                main_init
              = { stateOf ⟨0, 0, 0, 0⟩ 8 false false KEY_SELECT with tickCount := tc }) := by
  refine ⟨by decide, by decide, main_run_scenarioKeys, ?_, tick_5000_from_fifty_seconds, ?_,
    main_run_scenario_5000_ticks, ?_⟩
  · rw [main_run_scenarioKeys]
    decide
  · rw [Function.iterate_succ_apply', tick_5000_from_fifty_seconds]
    decide
  · obtain ⟨tc, he⟩ := main_run_scenario_expired
    refine ⟨tc, he, ?_⟩
    rw [main_run_append, he, main_run_singleton]
    have hk : main_keyStep KEY_SELECT
        { stateOf ⟨0, 0, 0, 0⟩ (-1) false true KEY_NONE with tickCount := tc }
        = { stateOf ⟨0, 0, 0, 0⟩ 8 false false KEY_NONE with tickCount := tc } := by
      rw [main_keyStep_of_guard _ _
          (main_guard_select_over _ rfl (by show KEY_NONE ≠ KEY_SELECT; decide)),
        main_switch_select_over _ rfl rfl]
      exact main_colon_off_colon _ _ (by show (8 : Int) ≠ 3; decide)
        (by show (8 : Int) ≠ 6; decide)
    rw [main_loop_of_not_ticking _ _ (by rw [hk]; rfl), hk]
    rfl

/-! ## Invariants of the main loop -/

/-- The invariant holds when the main loop is entered. -/
theorem loopInv_main_init : loopInv main_init := by
  decide

/-- In editing mode the invariant survives any in-range change of the timer that
keeps the milliseconds. -/
theorem loopInv_set_timer (s : State) (t : Timer) (h : loopInv s) (hO : s.isOver = false)
    (ht : timeInRange t) (hm : t.millisecond % 10 = 0) : loopInv { s with timer := t } := by
  obtain ⟨-, -, h3, h4, h5, -⟩ := h
  refine ⟨ht, hm, h3, h4, h5, ?_⟩
  intro h6
  rw [hO] at h6
  exact Bool.noConfusion h6

/-- In editing mode the invariant survives any move of the cursor to a digit. -/
theorem loopInv_set_cursor (s : State) (c : Int) (h : loopInv s) (hT : s.isTicking = false)
    (hO : s.isOver = false) (hc : cursorOnDigit c) : loopInv { s with cursorPosition := c } := by
  obtain ⟨h1, h2, h3, -, -, h6⟩ := h
  refine ⟨h1, h2, h3, ?_, fun _ => hc, h6⟩
  rintro (h | h)
  · rw [hT] at h; exact Bool.noConfusion h
  · rw [hO] at h; exact Bool.noConfusion h

/-- A digit position is not a colon column. -/
theorem cursorOnDigit_off_colon (c : Int) (h : cursorOnDigit c) : c ≠ 3 ∧ c ≠ 6 := by
  unfold cursorOnDigit at h
  omega

/-- An accepted Left from a digit position lands on a digit position. -/
theorem main_keyStep_left_digit (s : State) (g : main_guard KEY_LEFT s = true)
    (hd : cursorOnDigit s.cursorPosition) :
    ∃ c : Int, cursorOnDigit c ∧ main_keyStep KEY_LEFT s = { s with cursorPosition := c } := by
  rw [main_keyStep_of_guard _ _ g]
  rcases hd with hc | hc | hc | hc | hc | hc
  · have hstay : main_colon KEY_LEFT (main_switch KEY_LEFT s) = s := by
      simp [main_switch, main_colon, hc]
    exact ⟨s.cursorPosition, Or.inl hc, by rw [hstay]⟩
  · exact ⟨1, by decide, by simp [main_switch, main_colon, hc]⟩
  · exact ⟨2, by decide, by simp [main_switch, main_colon, hc]⟩
  · exact ⟨4, by decide, by simp [main_switch, main_colon, hc]⟩
  · exact ⟨5, by decide, by simp [main_switch, main_colon, hc]⟩
  · exact ⟨7, by decide, by simp [main_switch, main_colon, hc]⟩

/-- An accepted Right from a digit position lands on a digit position. -/
theorem main_keyStep_right_digit (s : State) (g : main_guard KEY_RIGHT s = true)
    (hd : cursorOnDigit s.cursorPosition) :
    ∃ c : Int, cursorOnDigit c ∧ main_keyStep KEY_RIGHT s = { s with cursorPosition := c } := by
  rw [main_keyStep_of_guard _ _ g]
  rcases hd with hc | hc | hc | hc | hc | hc
  · exact ⟨2, by decide, by simp [main_switch, main_colon, hc]⟩
  · exact ⟨4, by decide, by simp [main_switch, main_colon, hc]⟩
  · exact ⟨5, by decide, by simp [main_switch, main_colon, hc]⟩
  · exact ⟨7, by decide, by simp [main_switch, main_colon, hc]⟩
  · exact ⟨8, by decide, by simp [main_switch, main_colon, hc]⟩
  · have hstay : main_colon KEY_RIGHT (main_switch KEY_RIGHT s) = s := by
      simp [main_switch, main_colon, hc]
    exact ⟨s.cursorPosition, Or.inr (Or.inr (Or.inr (Or.inr (Or.inr hc)))), by rw [hstay]⟩

/-- An accepted Up on a digit position keeps the time value within the ranges. -/
theorem main_keyStep_up_inRange (s : State) (g : main_guard KEY_UP s = true)
    (hd : cursorOnDigit s.cursorPosition) (ht : timeInRange s.timer) :
    ∃ t : Timer, timeInRange t ∧ t.millisecond = s.timer.millisecond
      ∧ main_keyStep KEY_UP s = { s with timer := t } := by
  obtain ⟨a1, a2, a3, a4, a5, a6⟩ := main_keyStep_up_of_guard s g
  unfold timeInRange at ht
  rcases hd with hc | hc | hc | hc | hc | hc
  · refine ⟨_, ?_, ?_, a1 hc⟩
    · unfold timeInRange; dsimp only; split_ifs <;> omega
    · rfl
  · refine ⟨_, ?_, ?_, a2 hc⟩
    · unfold timeInRange; dsimp only; split_ifs <;> omega
    · rfl
  · refine ⟨_, ?_, ?_, a3 hc⟩
    · unfold timeInRange; dsimp only; split_ifs <;> omega
    · rfl
  · refine ⟨_, ?_, ?_, a4 hc⟩
    · unfold timeInRange; dsimp only; split_ifs <;> omega
    · rfl
  · refine ⟨_, ?_, ?_, a5 hc⟩
    · unfold timeInRange; dsimp only; split_ifs <;> omega
    · rfl
  · refine ⟨_, ?_, ?_, a6 hc⟩
    · unfold timeInRange; dsimp only; split_ifs <;> omega
    · rfl

/-- An accepted Down on a digit position keeps the time value within the ranges. -/
theorem main_keyStep_down_inRange (s : State) (g : main_guard KEY_DOWN s = true)
    (hd : cursorOnDigit s.cursorPosition) (ht : timeInRange s.timer) :
    ∃ t : Timer, timeInRange t ∧ t.millisecond = s.timer.millisecond
      ∧ main_keyStep KEY_DOWN s = { s with timer := t } := by
  obtain ⟨a1, a2, a3, a4, a5, a6⟩ := main_keyStep_down_of_guard s g
  unfold timeInRange at ht
  rcases hd with hc | hc | hc | hc | hc | hc
  · refine ⟨_, ?_, ?_, a1 hc⟩
    · unfold timeInRange; dsimp only; split_ifs <;> omega
    · rfl
  · refine ⟨_, ?_, ?_, a2 hc⟩
    · unfold timeInRange; dsimp only; split_ifs <;> omega
    · rfl
  · refine ⟨_, ?_, ?_, a3 hc⟩
    · unfold timeInRange; dsimp only; split_ifs <;> omega
    · rfl
  · refine ⟨_, ?_, ?_, a4 hc⟩
    · unfold timeInRange; dsimp only; split_ifs <;> omega
    · rfl
  · refine ⟨_, ?_, ?_, a5 hc⟩
    · unfold timeInRange; dsimp only; split_ifs <;> omega
    · rfl
  · refine ⟨_, ?_, ?_, a6 hc⟩
    · unfold timeInRange; dsimp only; split_ifs <;> omega
    · rfl

/-- The key handling preserves the invariant. -/
theorem main_keyStep_inv (key : Key) (s : State) (h : loopInv s) :
    loopInv (main_keyStep key s) := by
  cases g : main_guard key s
  · rw [main_keyStep_of_not_guard _ _ g]
    exact h
  · obtain ⟨hk1, hk2, hmode⟩ := (main_guard_iff key s).mp g
    have hedit : key ≠ KEY_SELECT → s.isTicking = false ∧ s.isOver = false := by
      intro hne
      rcases hmode with hm | hm
      · exact hm
      · exact absurd hm hne
    cases key with
    | KEY_NONE => exact absurd rfl hk1
    | KEY_LEFT =>
      obtain ⟨hT, hO⟩ := hedit (by decide)
      obtain ⟨c, hc, hr⟩ := main_keyStep_left_digit s g (h.2.2.2.2.1 ⟨hT, hO⟩)
      rw [hr]
      exact loopInv_set_cursor s c h hT hO hc
    | KEY_RIGHT =>
      obtain ⟨hT, hO⟩ := hedit (by decide)
      obtain ⟨c, hc, hr⟩ := main_keyStep_right_digit s g (h.2.2.2.2.1 ⟨hT, hO⟩)
      rw [hr]
      exact loopInv_set_cursor s c h hT hO hc
    | KEY_UP =>
      obtain ⟨hT, hO⟩ := hedit (by decide)
      obtain ⟨t, ht, hms, hr⟩ := main_keyStep_up_inRange s g (h.2.2.2.2.1 ⟨hT, hO⟩) h.1
      rw [hr]
      exact loopInv_set_timer s t h hO ht (by rw [hms]; exact h.2.1)
    | KEY_DOWN =>
      obtain ⟨hT, hO⟩ := hedit (by decide)
      obtain ⟨t, ht, hms, hr⟩ := main_keyStep_down_inRange s g (h.2.2.2.2.1 ⟨hT, hO⟩) h.1
      rw [hr]
      exact loopInv_set_timer s t h hO ht (by rw [hms]; exact h.2.1)
    | KEY_SELECT =>
      have hp : s.previousKey ≠ KEY_SELECT := fun e => hk2 e.symm
      obtain ⟨h1, h2, h3, h4, h5, h6⟩ := h
      cases hT : s.isTicking
      · cases hO : s.isOver
        · by_cases hz : s.timer.hour = 0 ∧ s.timer.minute = 0 ∧ s.timer.second = 0
          · obtain ⟨c3, c6⟩ := cursorOnDigit_off_colon _ (h5 ⟨hT, hO⟩)
            rw [main_keyStep_select_zero s hT hO hp hz c3 c6]
            exact ⟨h1, h2, h3, h4, h5, h6⟩
          · rw [main_keyStep_select_start s hT hO hp (by omega)]
            refine ⟨h1, h2, Or.inr hO, fun _ => rfl, ?_, h6⟩
            rintro ⟨a, -⟩
            exact Bool.noConfusion a
        · rw [main_keyStep_of_guard _ _ g, main_switch_select_over s hT hO]
          rw [main_colon_off_colon _ _ (by show (8 : Int) ≠ 3; decide)
            (by show (8 : Int) ≠ 6; decide)]
          refine ⟨by show timeInRange ⟨0, 0, 0, 0⟩; decide, by show (0 : Int) % 10 = 0; decide,
            Or.inr rfl, ?_, fun _ => by show cursorOnDigit 8; decide, fun _ => rfl⟩
          rintro (a | a)
          · rw [hT] at a; exact Bool.noConfusion a
          · exact Bool.noConfusion a
      · have hO : s.isOver = false := by
          rcases h3 with a | a
          · rw [hT] at a; exact Bool.noConfusion a
          · exact a
        rw [main_keyStep_select_ticking s hT hp]
        refine ⟨h1, h2, Or.inl rfl, ?_, fun _ => by show cursorOnDigit 1; decide, h6⟩
        rintro (a | a)
        · exact Bool.noConfusion a
        · rw [hO] at a; exact Bool.noConfusion a

/-- A call of `tick` while counting preserves the invariant. -/
theorem tick_inv (s : State) (h : loopInv s) (hT : s.isTicking = true) : loopInv (tick s) := by
  obtain ⟨h1, h2, h3, h4, h5, h6⟩ := h
  have hO : s.isOver = false := by
    rcases h3 with a | a
    · rw [hT] at a; exact Bool.noConfusion a
    · exact a
  have hc : s.cursorPosition = -1 := h4 (Or.inl hT)
  unfold timeInRange at h1
  by_cases hg : s.timer.hour ≤ 0 ∧ s.timer.minute ≤ 0 ∧ s.timer.second ≤ 0
      ∧ s.timer.millisecond ≤ 0
  · rw [tick_of_nonpositive s hg]
    refine ⟨h1, h2, Or.inl rfl, fun _ => rfl, ?_, ?_⟩
    · rintro ⟨-, a⟩
      exact Bool.noConfusion a
    · intro _
      show s.timer = ⟨0, 0, 0, 0⟩
      obtain ⟨⟨hr, mi, se, ms⟩, c, tc, it, io, pk, kp⟩ := s
      simp only at h1 hg
      have e1 : hr = 0 := by omega
      have e2 : mi = 0 := by omega
      have e3 : se = 0 := by omega
      have e4 : ms = 0 := by omega
      rw [e1, e2, e3, e4]
  · rw [tick_of_positive s hg]
    have hkeep : ∀ t : Timer, timeInRange t → t.millisecond % 10 = 0 →
        loopInv { s with timer := t } := by
      intro t ht hm
      refine ⟨ht, hm, Or.inr hO, fun _ => hc, ?_, ?_⟩
      · rintro ⟨a, -⟩
        rw [hT] at a
        exact Bool.noConfusion a
      · intro a
        rw [hO] at a
        exact Bool.noConfusion a
    split_ifs <;> apply hkeep <;> first
      | (unfold timeInRange; dsimp only; omega)
      | (dsimp only; omega)

/-- One iteration of the main loop preserves the invariant. -/
theorem main_loop_inv (key : Key) (s : State) (h : loopInv s) : loopInv (main_loop key s) := by
  have hk : loopInv { main_keyStep key s with previousKey := key } := main_keyStep_inv key s h
  cases hT : (main_keyStep key s).isTicking
  · rw [main_loop_of_not_ticking key s hT]
    exact hk
  · have ht := tick_inv { main_keyStep key s with previousKey := key } hk hT
    unfold main_loop
    dsimp only
    rw [if_pos hT]
    split_ifs
    · exact ht
    · exact ht

/-- Every state the main loop reaches from an invariant state satisfies the invariant. -/
theorem main_run_inv (keys : List Key) (s : State) (h : loopInv s) :
    loopInv (main_run keys s) := by
  induction keys generalizing s with
  | nil => exact h
  | cons k ks ih => exact ih (main_loop k s) (main_loop_inv k s h)

/-- Every state the main loop reaches from its initial state satisfies the invariant. -/
theorem main_run_init_inv (keys : List Key) : loopInv (main_run keys main_init) :=
  main_run_inv keys main_init loopInv_main_init

/-- Claim C1: for every timer value of the data model (all four fields non-negative;
their upper bounds are not needed) that is not all-zero, one call of `tick`
reduces the total remaining time
`((hour*60 + minute)*60 + second)*1000 + millisecond` by exactly 10.  The time
fields of every state the main loop reaches are such values, so there the only
condition is that the value is not all-zero. -/
theorem tick_total_decreases_by_ten (s : State)
    (hh : 0 ≤ s.timer.hour) (hm : 0 ≤ s.timer.minute) (hs : 0 ≤ s.timer.second)
    (hms : 0 ≤ s.timer.millisecond)
    (hnz : ¬(s.timer.hour = 0 ∧ s.timer.minute = 0 ∧ s.timer.second = 0
              ∧ s.timer.millisecond = 0)) :
    ((((tick s).timer.hour * 60 + (tick s).timer.minute) * 60 + (tick s).timer.second) * 1000
          + (tick s).timer.millisecond
        = (((s.timer.hour * 60 + s.timer.minute) * 60 + s.timer.second) * 1000
          + s.timer.millisecond) - 10)
      ∧ (∀ keys : List Key,
          ¬((main_run keys main_init).timer.hour = 0 ∧ (main_run keys main_init).timer.minute = 0
              ∧ (main_run keys main_init).timer.second = 0
              ∧ (main_run keys main_init).timer.millisecond = 0) →
          (((tick (main_run keys main_init)).timer.hour * 60
                + (tick (main_run keys main_init)).timer.minute) * 60
                + (tick (main_run keys main_init)).timer.second) * 1000
              + (tick (main_run keys main_init)).timer.millisecond
            = ((((main_run keys main_init).timer.hour * 60
                + (main_run keys main_init).timer.minute) * 60
                + (main_run keys main_init).timer.second) * 1000
              + (main_run keys main_init).timer.millisecond) - 10) := by
  refine ⟨tick_total_of_nonneg s hh hm hs hms hnz, ?_⟩
  intro keys hnz2
  obtain ⟨⟨a1, -, a2, -, a3, -, a4, -⟩, -⟩ := main_run_init_inv keys
  exact tick_total_of_nonneg _ a1 a2 a3 a4 hnz2

/-- A borrow through all four fields: one hour on the clock becomes 0:59:59.990. -/
theorem tick_total_decreases_by_ten_witness :
    (((tick (stateOf ⟨1, 0, 0, 0⟩ (-1) true false KEY_NONE)).timer.hour * 60
          + (tick (stateOf ⟨1, 0, 0, 0⟩ (-1) true false KEY_NONE)).timer.minute) * 60
          + (tick (stateOf ⟨1, 0, 0, 0⟩ (-1) true false KEY_NONE)).timer.second) * 1000
          + (tick (stateOf ⟨1, 0, 0, 0⟩ (-1) true false KEY_NONE)).timer.millisecond
      = ((((1 : Int) * 60 + 0) * 60 + 0) * 1000 + 0) - 10 :=
  (tick_total_decreases_by_ten (stateOf ⟨1, 0, 0, 0⟩ (-1) true false KEY_NONE)
    (by decide) (by decide) (by decide) (by decide) (by decide)).1

/-- Claim C2: for every timer value of the data model (all four fields non-negative;
their upper bounds are not needed) that is not all-zero, `tick` computes exactly
the borrow chain of the specification (`tickBorrowChain`) on the timer and leaves
everything else, in particular `isTicking`, `isOver` and the cursor, unchanged;
and from (0, 0, 1, 5) one `tick` yields (0, 0, 0, 995).  The time fields of every
state the main loop reaches are such values, so there the only condition is that
the value is not all-zero. -/
theorem tick_eq_borrow_chain (s : State)
    (hh : 0 ≤ s.timer.hour) (hm : 0 ≤ s.timer.minute) (hs : 0 ≤ s.timer.second)
    (hms : 0 ≤ s.timer.millisecond)
    (hnz : ¬(s.timer.hour = 0 ∧ s.timer.minute = 0 ∧ s.timer.second = 0
              ∧ s.timer.millisecond = 0)) :
    tick s = { s with timer := tickBorrowChain s.timer }
      ∧ (tick s).isTicking = s.isTicking
      ∧ (tick s).isOver = s.isOver
      ∧ (tick s).cursorPosition = s.cursorPosition
      ∧ (s.timer = ⟨0, 0, 1, 5⟩ → (tick s).timer = ⟨0, 0, 0, 995⟩)
      ∧ (∀ keys : List Key,
          ¬((main_run keys main_init).timer.hour = 0 ∧ (main_run keys main_init).timer.minute = 0
              ∧ (main_run keys main_init).timer.second = 0
              ∧ (main_run keys main_init).timer.millisecond = 0) →
          tick (main_run keys main_init)
            = { main_run keys main_init with
                timer := tickBorrowChain (main_run keys main_init).timer }) := by
  have main := tick_borrow_of_nonneg s hh hm hs hms hnz
  refine ⟨main, ?_, ?_, ?_, ?_, ?_⟩
  · rw [main]
  · rw [main]
  · rw [main]
  · intro ht
    rw [main, ht]
    show tickBorrowChain ⟨0, 0, 1, 5⟩ = ⟨0, 0, 0, 995⟩
    decide
  · intro keys hnz2
    obtain ⟨⟨a1, -, a2, -, a3, -, a4, -⟩, -⟩ := main_run_init_inv keys
    exact tick_borrow_of_nonneg _ a1 a2 a3 a4 hnz2

/-- The example of the specification: one second and five milliseconds. -/
theorem tick_eq_borrow_chain_witness :
    tick (stateOf ⟨0, 0, 1, 5⟩ (-1) true false KEY_NONE)
        = { stateOf ⟨0, 0, 1, 5⟩ (-1) true false KEY_NONE with
            timer := tickBorrowChain ⟨0, 0, 1, 5⟩ }
      ∧ (tick (stateOf ⟨0, 0, 1, 5⟩ (-1) true false KEY_NONE)).timer = ⟨0, 0, 0, 995⟩ :=
  ⟨(tick_eq_borrow_chain (stateOf ⟨0, 0, 1, 5⟩ (-1) true false KEY_NONE)
      (by decide) (by decide) (by decide) (by decide) (by decide)).1,
   (tick_eq_borrow_chain (stateOf ⟨0, 0, 1, 5⟩ (-1) true false KEY_NONE)
      (by decide) (by decide) (by decide) (by decide) (by decide)).2.2.2.2.1 rfl⟩

/-- Claim C11: for every Expired state, i.e. one in which `case KEY_SELECT` takes its
reset branch (`isOver` set and `isTicking` clear), handling a newly pressed Select
zeroes all four time fields, clears `isOver` (mode Editing), puts the cursor at
position 8 and initialises the keypad again: timer, mode flags, cursor and keypad
are exactly those of the state in which the main loop is entered at program
start.  The refresh counter and the previous-key memory are not touched.  In
every state the main loop reaches `isOver` alone identifies such a state, so
there the same holds with `isOver` set as the only condition. -/
theorem keyStep_select_resets_expired (s : State)
    (hT : s.isTicking = false) (hO : s.isOver = true) (hp : s.previousKey ≠ KEY_SELECT) :
    main_keyStep KEY_SELECT s
        = { s with timer := ⟨0, 0, 0, 0⟩, cursorPosition := 8, isOver := false,
                   keypad := init_keypad s.keypad }
      ∧ (main_keyStep KEY_SELECT s).timer = main_init.timer
      ∧ (main_keyStep KEY_SELECT s).isTicking = main_init.isTicking
      ∧ (main_keyStep KEY_SELECT s).isOver = main_init.isOver
      ∧ (main_keyStep KEY_SELECT s).cursorPosition = main_init.cursorPosition
      ∧ (main_keyStep KEY_SELECT s).keypad = main_init.keypad
      ∧ main_init.timer = ⟨0, 0, 0, 0⟩ ∧ main_init.isTicking = false
      ∧ main_init.isOver = false ∧ main_init.cursorPosition = 8
      ∧ (∀ keys : List Key, (main_run keys main_init).isOver = true →
          (main_run keys main_init).previousKey ≠ KEY_SELECT →
          (main_keyStep KEY_SELECT (main_run keys main_init)).timer = ⟨0, 0, 0, 0⟩
            ∧ (main_keyStep KEY_SELECT (main_run keys main_init)).isTicking = false
            ∧ (main_keyStep KEY_SELECT (main_run keys main_init)).isOver = false
            ∧ (main_keyStep KEY_SELECT (main_run keys main_init)).cursorPosition = 8) := by
  have hstep := main_keyStep_select_over s hT hO hp
  refine ⟨hstep, ?_, ?_, ?_, ?_, ?_, rfl, rfl, rfl, rfl, ?_⟩
  · rw [hstep]; rfl
  · rw [hstep]; exact hT
  · rw [hstep]; rfl
  · rw [hstep]; rfl
  · rw [hstep]; rfl
  · intro keys hO2 hp2
    have hT2 : (main_run keys main_init).isTicking = false := by
      rcases (main_run_init_inv keys).2.2.1 with a | a
      · exact a
      · rw [hO2] at a; exact Bool.noConfusion a
    rw [main_keyStep_select_over _ hT2 hO2 hp2]
    exact ⟨rfl, hT2, rfl, rfl⟩

/-- Select after a countdown has expired. -/
theorem keyStep_select_resets_expired_witness :
    main_keyStep KEY_SELECT (stateOf ⟨0, 0, 0, 0⟩ (-1) false true KEY_NONE)
      = stateOf ⟨0, 0, 0, 0⟩ 8 false false KEY_NONE :=
  (keyStep_select_resets_expired (stateOf ⟨0, 0, 0, 0⟩ (-1) false true KEY_NONE)
    rfl rfl (by decide)).1

/-- Claim C16: in every state reached from the initial state by any sequence of
main-loop iterations with arbitrary sampled keys, hour, minute and second lie in
0..99 and millisecond in 0..999; the same holds in between, after the key
handling of the next iteration and before its `tick`. -/
theorem time_range_invariant (keys : List Key) :
    (0 ≤ (main_run keys main_init).timer.hour ∧ (main_run keys main_init).timer.hour ≤ 99
        ∧ 0 ≤ (main_run keys main_init).timer.minute
        ∧ (main_run keys main_init).timer.minute ≤ 99
        ∧ 0 ≤ (main_run keys main_init).timer.second
        ∧ (main_run keys main_init).timer.second ≤ 99
        ∧ 0 ≤ (main_run keys main_init).timer.millisecond
        ∧ (main_run keys main_init).timer.millisecond ≤ 999)
      ∧ ∀ k : Key, timeInRange (main_keyStep k (main_run keys main_init)).timer :=
  ⟨(main_run_init_inv keys).1, fun k => (main_keyStep_inv k _ (main_run_init_inv keys)).1⟩

/-- Claim C17: in every state reached from the initial state by any sequence of
main-loop iterations with arbitrary sampled keys, the cursor position at the end
of the iteration is the locked sentinel -1 or one of the digit positions 1, 2, 4,
5, 7, 8; it is never on a colon column (3 or 6), never 0 and never greater
than 8. -/
theorem cursor_invariant (keys : List Key) :
    ((main_run keys main_init).cursorPosition = -1
        ∨ (main_run keys main_init).cursorPosition = 1
        ∨ (main_run keys main_init).cursorPosition = 2
        ∨ (main_run keys main_init).cursorPosition = 4
        ∨ (main_run keys main_init).cursorPosition = 5
        ∨ (main_run keys main_init).cursorPosition = 7
        ∨ (main_run keys main_init).cursorPosition = 8)
      ∧ (main_run keys main_init).cursorPosition ≠ 3
      ∧ (main_run keys main_init).cursorPosition ≠ 6
      ∧ (main_run keys main_init).cursorPosition ≠ 0
      ∧ ¬ (main_run keys main_init).cursorPosition > 8 := by
  obtain ⟨-, -, h3, h4, h5, -⟩ := main_run_init_inv keys
  have hcur : (main_run keys main_init).cursorPosition = -1
      ∨ cursorOnDigit (main_run keys main_init).cursorPosition := by
    cases hT : (main_run keys main_init).isTicking
    · cases hO : (main_run keys main_init).isOver
      · exact Or.inr (h5 ⟨hT, hO⟩)
      · exact Or.inl (h4 (Or.inr hO))
    · exact Or.inl (h4 (Or.inl hT))
  unfold cursorOnDigit at hcur
  refine ⟨hcur, ?_, ?_, ?_, ?_⟩ <;> omega

/-- Claim C18, as stated, fails: seventy seconds are set and started; at the end of
the starting iteration the mode is Counting and second is 69, above 59. -/
theorem counting_with_second_above_59 :
    (main_run seventySecondsKeys main_init).isTicking = true
      ∧ (main_run seventySecondsKeys main_init).isOver = false
      ∧ (main_run seventySecondsKeys main_init).timer = ⟨0, 0, 69, 990⟩
      ∧ ¬ (main_run seventySecondsKeys main_init).timer.second ≤ 59 := by
  decide

/-- A call of `tick` leaves minute and second as they are, lowers them by one, or
sets them to 59 on a borrow. -/
theorem tick_minute_second_cases (s : State) :
    ((tick s).timer.second = s.timer.second ∨ (tick s).timer.second = s.timer.second - 1
        ∨ (tick s).timer.second = 59)
      ∧ ((tick s).timer.minute = s.timer.minute ∨ (tick s).timer.minute = s.timer.minute - 1
        ∨ (tick s).timer.minute = 59) := by
  unfold tick
  dsimp only
  split_ifs <;> simp

/-- Claim C18, amended: in every reachable state whose mode is Counting, minute and
second lie in 0..99, not necessarily in 0..59: both are editable up to 99 before
the start and a value above 59 is counted down as it is.  The call of `tick` made
in such a state keeps both fields within 0..99 and keeps a field that is at most
59 at most 59. -/
theorem counting_fields_bounded (keys : List Key)
    (hT : (main_run keys main_init).isTicking = true) :
    (0 ≤ (main_run keys main_init).timer.minute ∧ (main_run keys main_init).timer.minute ≤ 99
        ∧ 0 ≤ (main_run keys main_init).timer.second
        ∧ (main_run keys main_init).timer.second ≤ 99)
      ∧ (0 ≤ (tick (main_run keys main_init)).timer.minute
        ∧ (tick (main_run keys main_init)).timer.minute ≤ 99
        ∧ 0 ≤ (tick (main_run keys main_init)).timer.second
        ∧ (tick (main_run keys main_init)).timer.second ≤ 99)
      ∧ ((main_run keys main_init).timer.second ≤ 59 →
          (tick (main_run keys main_init)).timer.second ≤ 59)
      ∧ ((main_run keys main_init).timer.minute ≤ 59 →
          (tick (main_run keys main_init)).timer.minute ≤ 59) := by
  have hinv := main_run_init_inv keys
  obtain ⟨⟨-, -, a, b, c, d, -, -⟩, -⟩ := hinv
  obtain ⟨⟨-, -, a2, b2, c2, d2, -, -⟩, -⟩ := tick_inv _ (main_run_init_inv keys) hT
  obtain ⟨hs, hm⟩ := tick_minute_second_cases (main_run keys main_init)
  refine ⟨⟨a, b, c, d⟩, ⟨a2, b2, c2, d2⟩, ?_, ?_⟩
  · intro h
    omega
  · intro h
    omega

/-- Seventy seconds set and started: counting, with second at 69. -/
theorem counting_fields_bounded_witness :
    0 ≤ (main_run seventySecondsKeys main_init).timer.minute
      ∧ (main_run seventySecondsKeys main_init).timer.minute ≤ 99
      ∧ 0 ≤ (main_run seventySecondsKeys main_init).timer.second
      ∧ (main_run seventySecondsKeys main_init).timer.second ≤ 99 :=
  (counting_fields_bounded seventySecondsKeys (by decide)).1

/-! ## Pausing -/

/-- With the timer stopped, an iteration that samples `KEY_NONE` only records it. -/
theorem main_loop_none_of_not_ticking (q : State) (h : q.isTicking = false) :
    main_loop KEY_NONE q = { q with previousKey := KEY_NONE } := by
  rw [main_loop_of_not_ticking KEY_NONE q (by rw [main_keyStep_none]; exact h),
    main_keyStep_none]

/-- The iteration that pauses a countdown. -/
theorem main_loop_select_ticking (s : State) (hT : s.isTicking = true)
    (hp : s.previousKey ≠ KEY_SELECT) :
    main_loop KEY_SELECT s
      = { s with isTicking := false, cursorPosition := 1, previousKey := KEY_SELECT } := by
  rw [main_loop_of_not_ticking KEY_SELECT s (by rw [main_keyStep_select_ticking s hT hp]),
    main_keyStep_select_ticking s hT hp]

/-- Any number of idle iterations after a pause change nothing but the key memory. -/
theorem main_run_none_of_not_ticking (n : Nat) (q : State) (h : q.isTicking = false) :
    main_run (List.replicate (n + 1) KEY_NONE) q = { q with previousKey := KEY_NONE } := by
  induction n generalizing q with
  | zero =>
    show main_loop KEY_NONE q = _
    exact main_loop_none_of_not_ticking q h
  | succ n ih =>
    show main_run (List.replicate (n + 1) KEY_NONE) (main_loop KEY_NONE q) = _
    rw [main_loop_none_of_not_ticking q h]
    exact ih { q with previousKey := KEY_NONE } h

/-- Claim C19: for every Counting state, the main-loop iteration in which Select is
newly pressed only clears `isTicking`, puts the cursor at 1 and records the key:
all four time fields, milliseconds included, and the refresh counter are as
before, so no `tick` has run.  Every iteration that starts with the timer not
counting and samples `KEY_NONE` changes nothing but the previous-key memory, so
after any number of such iterations following the pause the time value, cursor
and mode are still those of the paused state. -/
theorem pause_preserves_remaining_count (s : State)
    (hT : s.isTicking = true) (hp : s.previousKey ≠ KEY_SELECT) :
    main_loop KEY_SELECT s
        = { s with isTicking := false, cursorPosition := 1, previousKey := KEY_SELECT }
      ∧ (main_loop KEY_SELECT s).timer = s.timer
      ∧ (main_loop KEY_SELECT s).tickCount = s.tickCount
      ∧ (∀ q : State, q.isTicking = false →
          main_loop KEY_NONE q = { q with previousKey := KEY_NONE })
      ∧ (∀ n : Nat, main_run (List.replicate (n + 1) KEY_NONE) (main_loop KEY_SELECT s)
          = { s with isTicking := false, cursorPosition := 1, previousKey := KEY_NONE }) := by
  have h1 := main_loop_select_ticking s hT hp
  refine ⟨h1, by rw [h1], by rw [h1], main_loop_none_of_not_ticking, ?_⟩
  intro n
  rw [h1, main_run_none_of_not_ticking n _ rfl]

/-- A countdown paused at 49.5 seconds and left alone for three iterations. -/
theorem pause_preserves_remaining_count_witness :
    main_run [KEY_NONE, KEY_NONE, KEY_NONE]
        (main_loop KEY_SELECT (stateOf ⟨0, 0, 49, 500⟩ (-1) true false KEY_NONE))
      = stateOf ⟨0, 0, 49, 500⟩ 1 false false KEY_NONE :=
  (pause_preserves_remaining_count (stateOf ⟨0, 0, 49, 500⟩ (-1) true false KEY_NONE)
    rfl (by decide)).2.2.2.2 2

/-- Claim C20: in every state reached from the initial state by any sequence of
main-loop iterations with arbitrary sampled keys, `isTicking` and `isOver` are not
both true; the cursor is locked at -1 if and only if `isTicking` or `isOver` is
true; and whenever `isOver` is true the time value is all-zero. -/
theorem mode_consistency_invariant (keys : List Key) :
    ¬((main_run keys main_init).isTicking = true ∧ (main_run keys main_init).isOver = true)
      ∧ ((main_run keys main_init).cursorPosition = -1 ↔
          ((main_run keys main_init).isTicking = true ∨ (main_run keys main_init).isOver = true))
      ∧ ((main_run keys main_init).isOver = true →
          (main_run keys main_init).timer.hour = 0 ∧ (main_run keys main_init).timer.minute = 0
            ∧ (main_run keys main_init).timer.second = 0
            ∧ (main_run keys main_init).timer.millisecond = 0) := by
  obtain ⟨-, -, h3, h4, h5, h6⟩ := main_run_init_inv keys
  refine ⟨?_, ⟨?_, h4⟩, ?_⟩
  · rintro ⟨a, b⟩
    rcases h3 with c | c
    · rw [a] at c; exact Bool.noConfusion c
    · rw [b] at c; exact Bool.noConfusion c
  · intro hc
    cases hT : (main_run keys main_init).isTicking
    · cases hO : (main_run keys main_init).isOver
      · have hd := h5 ⟨hT, hO⟩
        unfold cursorOnDigit at hd
        omega
      · exact Or.inr rfl
    · exact Or.inl rfl
  · intro hO
    rw [h6 hO]
    exact ⟨rfl, rfl, rfl, rfl⟩

end AvrTimer
